import Mathlib

/-!
Verification of the ZenML generic Service lifecycle and model-deployer
coordination subsystem (`zenml/services/service.py` and
`zenml/model_deployers/base_model_deployer.py`), shallowly embedded in Lean.

External collaborators (the abstract `check_status` probe, the abstract
`provision`/`deprovision` and `perform_*` backend operations, the endpoint
health monitor) are modelled as oracles: functions supplied by an
environment record, indexed by invocation counters carried in the service
state, so that every invocation is observable and may behave differently.
Exceptions are modelled with `Except String`.
-/

namespace ZenML

deriving instance DecidableEq for Except

/-- Modelled from the spec: the closed operational-state enum `ServiceState`
(`zenml/services/service_status.py` is not part of the excerpt; spec section 3
lists `INACTIVE | ACTIVE(RUNNING) | INITIALIZING | TERMINATING | FAILED |
ERROR`, and `service.py` uses members `INACTIVE`, `RUNNING`, `INITIALIZING`,
`TERMINATING`, `FAILED`). -/
inductive ServiceState where
  | INACTIVE
  | RUNNING
  | INITIALIZING
  | TERMINATING
  | FAILED
  | ERROR
  deriving DecidableEq, Repr

/-- Modelled from the spec: the `ServiceStatus` record
(`zenml/services/service_status.py` is not part of the excerpt; spec section 3
gives the fields `state` and `last_error`). -/
structure ServiceStatus where
  state : ServiceState
  last_error : String
  deriving DecidableEq, Repr

/-- Modelled from the spec: `ServiceStatus.update_state` is missing from the
excerpt; spec sections 3 and 4.1 say it "overwrites `state` and `last_error`
atomically as a single observable step". -/
def ServiceStatus.update_state (_s : ServiceStatus) (st : ServiceState)
    (err : String) : ServiceStatus :=
  { state := st, last_error := err }

/-- `ServiceConfig` (service.py lines 97-132): the generic configuration
fields; subclass-specific fields are abstracted away. -/
structure ServiceConfig where
  name : String
  description : String
  pipeline_name : String
  pipeline_step_name : String
  run_name : String
  model_name : String
  model_version : String
  deriving DecidableEq, Repr

/-- `ServiceType` (service_type.py is not part of the excerpt; spec section 3
gives the static descriptor fields `name`, `type`, `flavor`, `description`). -/
structure ServiceType where
  name : String
  type : String
  flavor : String
  description : String
  deriving DecidableEq, Repr

/-- `BaseService` (service.py lines 135-513): the dynamic state of one
service instance.  `has_endpoint` abstracts the optional `endpoint` field
(only its presence is observable to the code under verification; the
endpoint's own behaviour is an oracle in `ServiceEnv`).  `source` is the
fully-qualified implementation identifier that `dict()["type"]` serializes
and `from_model` resolves.  The `*_count` fields are invocation counters for
the abstract external calls, so that each call is observable and indexes the
corresponding oracle. -/
structure BaseService where
  uuid : Nat
  admin_state : ServiceState
  config : ServiceConfig
  status : ServiceStatus
  has_endpoint : Bool
  source : String
  probe_count : Nat
  provision_count : Nat
  deprovision_count : Nat
  deriving DecidableEq, Repr

/-- Oracle environment for one service instance: the abstract methods
(`check_status`, endpoint monitoring, `provision`, `deprovision`) that
concrete subclasses implement, plus the abstract prediction / healthcheck
URL computations.  Each oracle is indexed by the corresponding invocation
counter; a `.error` result models the Python call raising an exception with
that message. -/
structure ServiceEnv where
  check_status : Nat → Except String (ServiceState × String)
  endpoint_update : Nat → Except String Unit
  endpoint_active : Nat → Bool
  provision : Nat → Except String Unit
  deprovision : Nat → Bool → Except String Unit
  prediction_uri : Option String
  healthcheck_uri : Option String

/-- `BaseService.update_status` (service.py lines 244-278): run the
`check_status` probe, overwrite the local status with the result, then (when
the observed state is not INACTIVE and an endpoint is configured) refresh the
endpoint; any exception raised by the probe or the endpoint refresh is caught
and mapped to FAILED with the exception text. -/
def BaseService.update_status (s : BaseService) (env : ServiceEnv) : BaseService :=
  let n := s.probe_count
  let s := { s with probe_count := n + 1 }
  match env.check_status n with
  | .error e => { s with status := s.status.update_state .FAILED e }
  | .ok (st, err) =>
    let s := { s with status := s.status.update_state st err }
    if s.status.state = .INACTIVE then s
    else if s.has_endpoint then
      match env.endpoint_update n with
      | .ok _ => s
      | .error e => { s with status := s.status.update_state .FAILED e }
    else s

/-- `BaseService.is_running` (service.py lines 330-344): force a fresh probe,
then report whether the observed state is RUNNING and the endpoint (if any)
is active. -/
def BaseService.is_running (s : BaseService) (env : ServiceEnv) : Bool × BaseService :=
  let n := s.probe_count
  let s := s.update_status env
  ((decide (s.status.state = .RUNNING) && (!s.has_endpoint || env.endpoint_active n)), s)

/-- `BaseService.is_stopped` (service.py lines 346-357). -/
def BaseService.is_stopped (s : BaseService) (env : ServiceEnv) : Bool × BaseService :=
  let s := s.update_status env
  (decide (s.status.state = .INACTIVE), s)

/-- `BaseService.is_failed` (service.py lines 359-370). -/
def BaseService.is_failed (s : BaseService) (env : ServiceEnv) : Bool × BaseService :=
  let s := s.update_status env
  (decide (s.status.state = .FAILED), s)

/-- One iteration of the `poll_service_status` busy-loop body (service.py
lines 309-315): the convergence checks, with Python's short-circuit
evaluation of `admin_state == X and probe` made explicit.  `some r` means the
loop returns `r`; `none` means the loop continues to the timeout check. -/
def BaseService.poll_round (s : BaseService) (env : ServiceEnv) :
    Option Bool × BaseService :=
  if s.admin_state = .RUNNING then
    match s.is_running env with
    | (true, s1) => (some true, s1)
    | (false, s1) =>
      match s1.is_failed env with
      | (true, s2) => (some false, s2)
      | (false, s2) => (none, s2)
  else if s.admin_state = .INACTIVE then
    match s.is_stopped env with
    | (true, s1) => (some true, s1)
    | (false, s1) =>
      match s1.is_failed env with
      | (true, s2) => (some false, s2)
      | (false, s2) => (none, s2)
  else
    match s.is_failed env with
    | (true, s2) => (some false, s2)
    | (false, s2) => (none, s2)

/-- The `poll_service_status` loop (service.py lines 308-319): runs a round
of checks each tick; when `time_remaining` reaches 0 the loop breaks and the
method returns False. -/
def BaseService.poll_loop (env : ServiceEnv) :
    Nat → BaseService → Bool × BaseService
  | 0, s =>
    match s.poll_round env with
    | (some r, s) => (r, s)
    | (none, s) => (false, s)
  | t + 1, s =>
    match s.poll_round env with
    | (some r, s) => (r, s)
    | (none, s) => BaseService.poll_loop env t s

/-- `BaseService.poll_service_status` (service.py lines 293-328): poll until
the operational state matches the administrative state, a FAILED observation
is seen, or the timeout elapses.  The timeout-elapsed log message has no
state effect and is not modelled. -/
def BaseService.poll_service_status (s : BaseService) (env : ServiceEnv)
    (timeout : Nat) : Bool × BaseService :=
  BaseService.poll_loop env timeout s

/-- Apply an optional status transition (`if pre_status: ...update_state`,
service.py lines 75-76 and 81-82). -/
def applyStatusOpt (o : Option ServiceState) (s : BaseService) : BaseService :=
  match o with
  | some p => { s with status := s.status.update_state p "" }
  | none => s

/-- The `update_service_status` decorator (service.py lines 52-94): set the
pre-status, run the wrapped body, set the post-status on success; on an
exception set the error status with the exception text and re-raise. -/
def update_service_status_wrap (pre post : Option ServiceState)
    (error_status : ServiceState)
    (body : BaseService → Except String Unit × BaseService)
    (s : BaseService) : Except String Unit × BaseService :=
  match body (applyStatusOpt pre s) with
  | (.ok r, s) => (.ok r, applyStatusOpt post s)
  | (.error e, s) => (.error e, { s with status := s.status.update_state error_status e })

/-- Body of `BaseService.start` (service.py lines 420-428): set the desired
state to RUNNING, provision, and when `timeout > 0` poll for convergence
(the failure log message has no state effect). -/
def BaseService.start_body (env : ServiceEnv) (timeout : Nat)
    (s : BaseService) : Except String Unit × BaseService :=
  let s := { s with admin_state := .RUNNING }
  let n := s.provision_count
  let s := { s with provision_count := n + 1 }
  match env.provision n with
  | .error e => (.error e, s)
  | .ok _ =>
    if timeout > 0 then
      let p := s.poll_service_status env timeout
      (.ok (), p.2)
    else (.ok (), s)

/-- `BaseService.start` (service.py lines 405-428): the body wrapped in the
status decorator with pre INITIALIZING / post RUNNING / error FAILED. -/
def BaseService.start (s : BaseService) (env : ServiceEnv) (timeout : Nat) :
    Except String Unit × BaseService :=
  update_service_status_wrap (some .INITIALIZING) (some .RUNNING) .FAILED
    (BaseService.start_body env timeout) s

/-- Body of `BaseService.stop` (service.py lines 447-457): set the desired
state to INACTIVE, deprovision, and when `timeout > 0` poll and then
re-check `is_stopped` (a further probe) for the failure log. -/
def BaseService.stop_body (env : ServiceEnv) (timeout : Nat) (force : Bool)
    (s : BaseService) : Except String Unit × BaseService :=
  let s := { s with admin_state := .INACTIVE }
  let n := s.deprovision_count
  let s := { s with deprovision_count := n + 1 }
  match env.deprovision n force with
  | .error e => (.error e, s)
  | .ok _ =>
    if timeout > 0 then
      let p := s.poll_service_status env timeout
      let q := p.2.is_stopped env
      (.ok (), q.2)
    else (.ok (), s)

/-- `BaseService.stop` (service.py lines 430-457): the body wrapped in the
status decorator with pre TERMINATING / post INACTIVE / error FAILED. -/
def BaseService.stop (s : BaseService) (env : ServiceEnv) (timeout : Nat)
    (force : Bool) : Except String Unit × BaseService :=
  update_service_status_wrap (some .TERMINATING) (some .INACTIVE) .FAILED
    (BaseService.stop_body env timeout force) s

/-- `BaseService.update` (service.py lines 397-403): wholesale replacement of
the configuration object; triggers no re-provisioning. -/
def BaseService.update (s : BaseService) (config : ServiceConfig) : BaseService :=
  { s with config := config }

/-- `BaseService.get_the_prediction_url` (service.py lines 484-497): the
concrete value depends on abstract subclass state (`prediction_url` override,
endpoint status URI), so it is an oracle of the environment. -/
def BaseService.get_the_prediction_url (_s : BaseService) (env : ServiceEnv) :
    Option String :=
  env.prediction_uri

/-- `BaseService.get_the_healthcheck_url` (service.py lines 499-512):
likewise oracle-valued. -/
def BaseService.get_the_healthcheck_url (_s : BaseService) (env : ServiceEnv) :
    Option String :=
  env.healthcheck_uri

/-- Modelled from the spec: one persisted service record of the external
store (spec section 6: the `Store` collaborator; `zenml/client.py` and the
store models are not part of the excerpt).  `endpoint` records the presence
of a serialized endpoint; `created` is the creation ordinal used by the
`desc:created` sort. -/
structure ServiceRecord where
  id : Nat
  name : String
  service_source : Option String
  config : ServiceConfig
  admin_state : ServiceState
  status : ServiceStatus
  endpoint : Bool
  service_type : ServiceType
  model_version_id : Option Nat
  prediction_url : Option String
  health_check_url : Option String
  created : Nat
  deriving DecidableEq, Repr

/-- Modelled from the spec: the external store (spec section 6).  `records`
is kept newest-created-first (every `create_service` prepends a record with a
strictly larger `created` ordinal), so that `list_services` returns matches
sorted `desc:created` by filtering in order.  `next_id` is the id generator
for new records. -/
structure Store where
  records : List ServiceRecord
  next_id : Nat
  next_created : Nat
  deriving DecidableEq, Repr

/-- Modelled from the spec: the filtering fields of `list_services` (spec
section 6: "id, running(bool), endpoint/model name, pipeline_name, run_name,
pipeline_step_name, model_version_id, type, flavor"). -/
structure ServiceFilter where
  id : Option Nat
  running : Bool
  endpoint_name_or_model_name : Option String
  pipeline_name : Option String
  run_name : Option String
  pipeline_step_name : Option String
  model_version_id : Option Nat
  type : Option String
  flavor : Option String
  deriving DecidableEq, Repr

/-- An optional equality filter: `none` imposes no constraint. -/
def matchOpt {α : Type} [DecidableEq α] : Option α → α → Bool
  | none, _ => true
  | some x, y => decide (x = y)

/-- Modelled from the spec: whether one record satisfies a `list_services`
filter.  `running = true` keeps only records whose recorded state is RUNNING;
the endpoint/model-name filter matches either the record name or the model
name. -/
def recordMatches (f : ServiceFilter) (r : ServiceRecord) : Bool :=
  matchOpt f.id r.id &&
  (!f.running || decide (r.status.state = .RUNNING)) &&
  (match f.endpoint_name_or_model_name with
   | none => true
   | some q => decide (q = r.name) || decide (q = r.config.model_name)) &&
  matchOpt f.pipeline_name r.config.pipeline_name &&
  matchOpt f.run_name r.config.run_name &&
  matchOpt f.pipeline_step_name r.config.pipeline_step_name &&
  (match f.model_version_id with
   | none => true
   | some v => decide (r.model_version_id = some v)) &&
  matchOpt f.type r.service_type.type &&
  matchOpt f.flavor r.service_type.flavor

/-- Modelled from the spec: `list_services` (spec section 6) — the records
matching the filter, newest-created-first (the store list order). -/
def Store.list_services (st : Store) (f : ServiceFilter) : List ServiceRecord :=
  st.records.filter (recordMatches f)

/-- Modelled from the spec: `create_service(config, service_type,
model_version_id) -> record` (spec section 6).  A fresh record starts with no
service source, no endpoint, and an INACTIVE status. -/
def Store.create_service (st : Store) (config : ServiceConfig)
    (stype : ServiceType) (mvid : Option Nat) : ServiceRecord × Store :=
  let r : ServiceRecord := {
    id := st.next_id
    name := config.name
    service_source := none
    config := config
    admin_state := .INACTIVE
    status := { state := .INACTIVE, last_error := "" }
    endpoint := false
    service_type := stype
    model_version_id := mvid
    prediction_url := none
    health_check_url := none
    created := st.next_created }
  (r, { records := r :: st.records, next_id := st.next_id + 1,
        next_created := st.next_created + 1 })

/-- Modelled from the spec: the optional fields of an `update_service` call
(spec section 6); a `none` field is not passed and leaves the record field
unchanged (keyword arguments the caller omits, or passes as Python `None`,
do not update the record). -/
structure ServiceUpdate where
  name : Option String
  service_source : Option String
  config : Option ServiceConfig
  admin_state : Option ServiceState
  status : Option ServiceStatus
  endpoint : Option Bool
  prediction_url : Option String
  health_check_url : Option String
  deriving DecidableEq, Repr

/-- Apply an update to one record: fields present in the update overwrite,
absent fields are kept. -/
def applyUpdate (u : ServiceUpdate) (r : ServiceRecord) : ServiceRecord :=
  { r with
    name := u.name.getD r.name
    service_source := match u.service_source with
      | some s => some s
      | none => r.service_source
    config := u.config.getD r.config
    admin_state := u.admin_state.getD r.admin_state
    status := u.status.getD r.status
    endpoint := u.endpoint.getD r.endpoint
    prediction_url := match u.prediction_url with
      | some s => some s
      | none => r.prediction_url
    health_check_url := match u.health_check_url with
      | some s => some s
      | none => r.health_check_url }

/-- Modelled from the spec: `update_service(id, ...) -> record` (spec
section 6): update the record(s) with the given id in place. -/
def Store.update_service (st : Store) (id : Nat) (u : ServiceUpdate) : Store :=
  let updated := st.records.map fun r => if r.id = id then applyUpdate u r else r
  { st with records := updated }

/-- Modelled from the spec: `delete_service(id) -> void` (spec section 6):
remove the record with the given id from the store. -/
def Store.delete_service (st : Store) (id : Nat) : Store :=
  { st with records := st.records.filter (fun r => !decide (r.id = id)) }

/-- A backend invocation observable in a deployer run: the abstract
`perform_*` calls of `BaseModelDeployer` and the store `create_service`
call.  Traced so that "exactly one call" claims are statable. -/
inductive DeployEvent where
  | performDeploy (id : Nat)
  | performDelete (uuid : Nat) (force : Bool)
  | performStop (uuid : Nat) (force : Bool)
  | performStart (uuid : Nat)
  | createService (id : Nat)
  deriving DecidableEq, Repr

/-- The world a `BaseModelDeployer` operates on: the external store plus the
trace of backend invocations made so far. -/
structure World where
  store : Store
  trace : List DeployEvent
  deriving DecidableEq, Repr

/-- Oracle environment for a deployer: per-service `ServiceEnv` oracles, the
model-version resolver (`none` models `get_model_version` raising KeyError),
and the four abstract backend operations of concrete deployer flavors
(base_model_deployer.py lines 207-237, 326-345, 387-401, 438-456). -/
structure DeployerEnv where
  senv : Nat → ServiceEnv
  resolver : String → Option String → Option Nat
  perform_deploy : Nat → ServiceConfig → Except String BaseService
  perform_delete : Nat → Bool → Except String Unit
  perform_stop : BaseService → Bool → Except String BaseService
  perform_start : BaseService → Except String BaseService

/-- `_get_model_version_id_if_exists` (base_model_deployer.py lines
568-591): resolve the model name/version to a stable id; a falsy (absent or
empty) model name, or a KeyError from the resolver, yields no id. -/
def getModelVersionIdIfExists (env : DeployerEnv)
    (model_name model_version : Option String) : Option Nat :=
  match model_name with
  | none => none
  | some n => if n = "" then none else env.resolver n model_version

/-- `BaseService.from_model` (service.py lines 173-195) applied to a store
record: reject a record with a falsy `service_source` (`ValueError`),
otherwise construct the typed service from the stored fields.  The dynamic
class resolution of `load_and_validate_class` is abstracted: a non-empty
source identifier revives. -/
def ServiceRecord.from_model (r : ServiceRecord) : Except String BaseService :=
  match r.service_source with
  | none => .error "Service source not found in the model."
  | some src =>
    if src = "" then .error "Service source not found in the model."
    else .ok { uuid := r.id, admin_state := r.admin_state, config := r.config,
               status := r.status, has_endpoint := r.endpoint, source := src,
               probe_count := 0, provision_count := 0, deprovision_count := 0 }

/-- Revive a record and force a fresh status probe — the per-record step of
`find_model_server` (base_model_deployer.py lines 311-312). -/
def probeRec (env : DeployerEnv) (r : ServiceRecord) : Except String BaseService :=
  (r.from_model).map (fun s0 => s0.update_status (env.senv r.id))

/-- The `endpoint` argument passed to `client.update_service`:
`service.endpoint.dict() if service.endpoint else None` — an absent endpoint
passes Python `None`, which does not update the stored field. -/
def endpointUpdateField (s : BaseService) : Option Bool :=
  if s.has_endpoint then some true else none

/-- The `ServiceUpdate` built by the write-back inside `find_model_server`
(base_model_deployer.py lines 314-322): config, admin state, status and
endpoint from the freshly probed service; no name/source/url updates. -/
def findWriteBack (s : BaseService) : ServiceUpdate :=
  { name := none, service_source := none, config := some s.config,
    admin_state := some s.admin_state, status := some s.status,
    endpoint := endpointUpdateField s, prediction_url := none,
    health_check_url := none }

/-- The per-record loop of `find_model_server` (base_model_deployer.py lines
309-324): revive each record (an exception aborts the whole call), force a
fresh probe, write the corrected status back iff it differs from what the
store had on record, and collect the revived service. -/
def findLoop (env : DeployerEnv) :
    List ServiceRecord → World → List BaseService →
    Except String (List BaseService) × World
  | [], w, acc => (.ok acc.reverse, w)
  | r :: rest, w, acc =>
    match probeRec env r with
    | .error e => (.error e, w)
    | .ok s =>
      let w :=
        if s.status = r.status then w
        else { w with store := w.store.update_service r.id (findWriteBack s) }
      findLoop env rest w (s :: acc)

/-- The `ServiceFilter` built by `find_model_server` from its arguments
(base_model_deployer.py lines 294-308), including the Python quirk that
`type or service_type.type if service_type else None` parses as
`(type or service_type.type) if service_type else None`. -/
def findFilter (env : DeployerEnv) (running : Bool) (service_uuid : Option Nat)
    (pipeline_name run_name pipeline_step_name endpoint_name_or_model_name
     model_name model_version : Option String)
    (service_type : Option ServiceType)
    (type_p flavor_p : Option String) : ServiceFilter :=
  let pyOr : Option String → String → String := fun o d =>
    match o with
    | none => d
    | some s => if s = "" then d else s
  { id := service_uuid
    running := running
    endpoint_name_or_model_name := endpoint_name_or_model_name
    pipeline_name := pipeline_name
    run_name := run_name
    pipeline_step_name := pipeline_step_name
    model_version_id := getModelVersionIdIfExists env model_name model_version
    type := match service_type with
      | none => none
      | some stp => some (pyOr type_p stp.type)
    flavor := match service_type with
      | none => none
      | some stp => some (pyOr flavor_p stp.flavor) }

/-- `BaseModelDeployer.find_model_server` (base_model_deployer.py lines
253-324): list the matching records newest-created-first, then revive,
re-probe and reconcile each one. -/
def find_model_server (env : DeployerEnv) (w : World) (running : Bool)
    (service_uuid : Option Nat)
    (pipeline_name run_name pipeline_step_name endpoint_name_or_model_name
     model_name model_version : Option String)
    (service_type : Option ServiceType)
    (type_p flavor_p : Option String) :
    Except String (List BaseService) × World :=
  let f := findFilter env running service_uuid pipeline_name run_name
    pipeline_step_name endpoint_name_or_model_name model_name model_version
    service_type type_p flavor_p
  findLoop env (w.store.list_services f) w []

/-- The full service snapshot `deploy_model` persists at the end
(base_model_deployer.py lines 193-204): name, source, config, admin state,
status, endpoint and the computed URLs. -/
def deploySnapshot (env : DeployerEnv) (service : BaseService) : ServiceUpdate :=
  { name := some service.config.name
    service_source := some service.source
    config := some service.config
    admin_state := some service.admin_state
    status := some service.status
    endpoint := endpointUpdateField service
    prediction_url := service.get_the_prediction_url (env.senv service.uuid)
    health_check_url := service.get_the_healthcheck_url (env.senv service.uuid) }

/-- The final `client.update_service` of `deploy_model`
(base_model_deployer.py lines 192-205): persist the full service snapshot and
return the service. -/
def finalizeDeploy (env : DeployerEnv) (w : World) (service : BaseService) :
    Except String BaseService × World :=
  let st := w.store.update_service service.uuid (deploySnapshot env service)
  (.ok service, { w with store := st })

/-- `BaseModelDeployer.deploy_model` (base_model_deployer.py lines 131-205):
find existing servers with the same logical identity; if one exists and
`replace` is set, force-delete the external resource, apply the new config
and start again; if one exists and `replace` is not set, keep the existing
service untouched; if none exists, create a store record and call the
backend `perform_deploy_model`; finally persist the full snapshot. -/
def deploy_model (env : DeployerEnv) (w : World) (config : ServiceConfig)
    (service_type : ServiceType) (replace : Bool) (timeout : Nat) :
    Except String BaseService × World :=
  match find_model_server env w false none (some config.pipeline_name)
      (some config.run_name) (some config.pipeline_step_name) none
      (some config.model_name) (some config.model_version)
      (some service_type) none none with
  | (.error e, w) => (.error e, w)
  | (.ok services, w) =>
    match services with
    | service :: _ =>
      if replace then
        let w := { w with trace := w.trace ++ [.performDelete service.uuid true] }
        match env.perform_delete service.uuid true with
        | .error e => (.error e, w)
        | .ok _ =>
          let service := service.update config
          match service.start (env.senv service.uuid) timeout with
          | (.error e, _) => (.error e, w)
          | (.ok _, service) => finalizeDeploy env w service
      else finalizeDeploy env w service
    | [] =>
      let mvid := getModelVersionIdIfExists env (some config.model_name)
        (some config.model_version)
      let rs := w.store.create_service config service_type mvid
      let ev : List DeployEvent := [.createService rs.1.id, .performDeploy rs.1.id]
      let w : World := { store := rs.2, trace := w.trace ++ ev }
      match env.perform_deploy rs.1.id config with
      | .error e => (.error e, w)
      | .ok service => finalizeDeploy env w service

/-- The `ServiceUpdate` persisted by `stop_model_server` and
`start_model_server` (base_model_deployer.py lines 373-381, 424-432). -/
def lifecycleWriteBack (s : BaseService) : ServiceUpdate :=
  { name := none, service_source := none, config := some s.config,
    admin_state := some s.admin_state, status := some s.status,
    endpoint := endpointUpdateField s, prediction_url := none,
    health_check_url := none }

/-- `BaseModelDeployer.stop_model_server` (base_model_deployer.py lines
347-385): look the service up by uuid, delegate to `perform_stop_model` and
persist the result; any exception (including the IndexError of `[0]` on an
empty result) is wrapped in a RuntimeError naming the uuid. -/
def stop_model_server (env : DeployerEnv) (w : World) (uuid : Nat)
    (force : Bool) : Except String Unit × World :=
  let wrap : String → String := fun e =>
    "Failed to stop model server with UUID " ++ toString uuid ++ ": " ++ e
  match find_model_server env w false (some uuid) none none none none none
      none none none none with
  | (.error e, w) => (.error (wrap e), w)
  | (.ok [], w) => (.error (wrap "list index out of range"), w)
  | (.ok (service :: _), w) =>
    let w := { w with trace := w.trace ++ [.performStop service.uuid force] }
    match env.perform_stop service force with
    | .error e => (.error (wrap e), w)
    | .ok updated =>
      (.ok (), { w with store :=
        w.store.update_service updated.uuid (lifecycleWriteBack updated) })

/-- `BaseModelDeployer.start_model_server` (base_model_deployer.py lines
403-436): the same pattern delegating to `perform_start_model`. -/
def start_model_server (env : DeployerEnv) (w : World) (uuid : Nat) :
    Except String Unit × World :=
  let wrap : String → String := fun e =>
    "Failed to start model server with UUID " ++ toString uuid ++ ": " ++ e
  match find_model_server env w false (some uuid) none none none none none
      none none none none with
  | (.error e, w) => (.error (wrap e), w)
  | (.ok [], w) => (.error (wrap "list index out of range"), w)
  | (.ok (service :: _), w) =>
    let w := { w with trace := w.trace ++ [.performStart service.uuid] }
    match env.perform_start service with
    | .error e => (.error (wrap e), w)
    | .ok updated =>
      (.ok (), { w with store :=
        w.store.update_service updated.uuid (lifecycleWriteBack updated) })

/-- `BaseModelDeployer.delete_model_server` (base_model_deployer.py lines
458-487): look the service up by uuid, delegate to `perform_delete_model`,
then remove the store record entirely; failures are wrapped in a
RuntimeError naming the uuid. -/
def delete_model_server (env : DeployerEnv) (w : World) (uuid : Nat)
    (force : Bool) : Except String Unit × World :=
  let wrap : String → String := fun e =>
    "Failed to delete model server with UUID " ++ toString uuid ++ ": " ++ e
  match find_model_server env w false (some uuid) none none none none none
      none none none none with
  | (.error e, w) => (.error (wrap e), w)
  | (.ok [], w) => (.error (wrap "list index out of range"), w)
  | (.ok (service :: _), w) =>
    let w := { w with trace := w.trace ++ [.performDelete service.uuid force] }
    match env.perform_delete service.uuid force with
    | .error e => (.error (wrap e), w)
    | .ok _ =>
      (.ok (), { w with store := w.store.delete_service uuid })

/-- A record whose `service_source` is present and non-empty: exactly the
records `from_model` can revive. -/
def SourceOk (r : ServiceRecord) : Prop := r.service_source.getD "" ≠ ""

instance (r : ServiceRecord) : Decidable (SourceOk r) := by
  unfold SourceOk
  infer_instance

/-- The service `from_model` constructs from a revivable record. -/
def ServiceRecord.revived (r : ServiceRecord) : BaseService :=
  { uuid := r.id, admin_state := r.admin_state, config := r.config,
    status := r.status, has_endpoint := r.endpoint,
    source := r.service_source.getD "", probe_count := 0,
    provision_count := 0, deprovision_count := 0 }

/-- The service produced by the per-record step of `find_model_server`:
revive, then force a fresh probe. -/
def ServiceRecord.probed (env : DeployerEnv) (r : ServiceRecord) : BaseService :=
  (r.revived).update_status (env.senv r.id)

/-- The store-side effect of reconciling one record in `find_model_server`:
the record keeps its probed status iff the probe differed. -/
def reconcileRecord (env : DeployerEnv) (r : ServiceRecord) : ServiceRecord :=
  if (r.probed env).status = r.status then r
  else { r with status := (r.probed env).status }

/-! ## Service-level lemmas -/

theorem update_status_uuid (env : ServiceEnv) (s : BaseService) :
    (s.update_status env).uuid = s.uuid := by
  unfold BaseService.update_status
  cases h : env.check_status s.probe_count <;> simp [h]
  case ok p =>
    split
    · rfl
    · split
      · split <;> rfl
      · rfl

theorem update_status_admin (env : ServiceEnv) (s : BaseService) :
    (s.update_status env).admin_state = s.admin_state := by
  unfold BaseService.update_status
  cases h : env.check_status s.probe_count <;> simp [h]
  case ok p =>
    split
    · rfl
    · split
      · split <;> rfl
      · rfl

theorem update_status_probe_count (env : ServiceEnv) (s : BaseService) :
    (s.update_status env).probe_count = s.probe_count + 1 := by
  unfold BaseService.update_status
  cases h : env.check_status s.probe_count <;> simp [h]
  case ok p =>
    split
    · rfl
    · split
      · split <;> rfl
      · rfl

theorem update_status_config (env : ServiceEnv) (s : BaseService) :
    (s.update_status env).config = s.config := by
  unfold BaseService.update_status
  cases h : env.check_status s.probe_count <;> simp [h]
  case ok p =>
    split
    · rfl
    · split
      · split <;> rfl
      · rfl

theorem update_status_endpoint (env : ServiceEnv) (s : BaseService) :
    (s.update_status env).has_endpoint = s.has_endpoint := by
  unfold BaseService.update_status
  cases h : env.check_status s.probe_count <;> simp [h]
  case ok p =>
    split
    · rfl
    · split
      · split <;> rfl
      · rfl

theorem update_status_source (env : ServiceEnv) (s : BaseService) :
    (s.update_status env).source = s.source := by
  unfold BaseService.update_status
  cases h : env.check_status s.probe_count <;> simp [h]
  case ok p =>
    split
    · rfl
    · split
      · split <;> rfl
      · rfl

theorem is_running_snd (env : ServiceEnv) (s : BaseService) :
    (s.is_running env).2 = s.update_status env := rfl

theorem is_stopped_snd (env : ServiceEnv) (s : BaseService) :
    (s.is_stopped env).2 = s.update_status env := rfl

theorem is_failed_snd (env : ServiceEnv) (s : BaseService) :
    (s.is_failed env).2 = s.update_status env := rfl

theorem poll_round_probe_bound (env : ServiceEnv) (s : BaseService) :
    (s.poll_round env).2.probe_count ≤ s.probe_count + 2 := by
  have key1 : ∀ (u v : BaseService) (b : Bool), u.is_running env = (b, v) →
      v.probe_count = u.probe_count + 1 := by
    intro u v b hv
    have h2 : (u.is_running env).2 = v := by rw [hv]
    rw [is_running_snd] at h2
    rw [← h2, update_status_probe_count]
  have key2 : ∀ (u v : BaseService) (b : Bool), u.is_stopped env = (b, v) →
      v.probe_count = u.probe_count + 1 := by
    intro u v b hv
    have h2 : (u.is_stopped env).2 = v := by rw [hv]
    rw [is_stopped_snd] at h2
    rw [← h2, update_status_probe_count]
  have key3 : ∀ (u v : BaseService) (b : Bool), u.is_failed env = (b, v) →
      v.probe_count = u.probe_count + 1 := by
    intro u v b hv
    have h2 : (u.is_failed env).2 = v := by rw [hv]
    rw [is_failed_snd] at h2
    rw [← h2, update_status_probe_count]
  unfold BaseService.poll_round
  split
  · split <;> rename_i _ s1 h1
    · simp [key1 _ _ _ h1]
    · split <;> rename_i s2 h2 <;>
        simp [key3 _ _ _ h2, key1 _ _ _ h1]
  · split
    · split <;> rename_i _ s1 h1
      · simp [key2 _ _ _ h1]
      · split <;> rename_i s2 h2 <;>
          simp [key3 _ _ _ h2, key2 _ _ _ h1]
    · split <;> rename_i s2 h2 <;> simp [key3 _ _ _ h2]

/-- The status decorator applied with a `post` state: a successful return
ends with exactly the declared post-status and an empty error. -/
theorem wrap_ok_status (pre : Option ServiceState) (post err : ServiceState)
    (body : BaseService → Except String Unit × BaseService) (s s' : BaseService)
    (r : Unit)
    (h : update_service_status_wrap pre (some post) err body s = (.ok r, s')) :
    s'.status = { state := post, last_error := "" } := by
  unfold update_service_status_wrap at h
  rcases hb : body (applyStatusOpt pre s) with ⟨res, s₂⟩
  rw [hb] at h
  cases res with
  | ok u =>
    have h2 : applyStatusOpt (some post) s₂ = s' := by
      simpa using congrArg Prod.snd h
    rw [← h2]
    rfl
  | error e => simp at h

/-- The status decorator: a body failure is recorded as the error status with
the exception text, and the same exception is re-raised. -/
theorem wrap_error_status (pre : Option ServiceState) (post : Option ServiceState)
    (err : ServiceState)
    (body : BaseService → Except String Unit × BaseService) (s s₂ : BaseService)
    (e : String)
    (hb : body (applyStatusOpt pre s) = (.error e, s₂)) :
    update_service_status_wrap pre post err body s =
      (.error e, { s₂ with status := s₂.status.update_state err e }) := by
  unfold update_service_status_wrap
  rw [hb]

/-! ## Claim theorems: service lifecycle (C3-C6, C10) -/

/-- A concrete service used in counterexamples and witnesses. -/
def witnessConfig : ServiceConfig :=
  { name := "svc", description := "", pipeline_name := "pipe",
    pipeline_step_name := "step", run_name := "run", model_name := "iris-clf",
    model_version := "1" }

/-- A concrete service whose desired state is RUNNING but which has not yet
converged. -/
def witnessService : BaseService :=
  { uuid := 7, admin_state := .RUNNING, config := witnessConfig,
    status := { state := .INACTIVE, last_error := "" },
    has_endpoint := false, source := "mod.Cls", probe_count := 0,
    provision_count := 0, deprovision_count := 0 }

/-- A concrete probe environment whose status checks always observe
INITIALIZING (the service never converges). -/
def witnessEnvInitializing : ServiceEnv :=
  { check_status := fun _ => .ok (.INITIALIZING, "")
    endpoint_update := fun _ => .ok ()
    endpoint_active := fun _ => true
    provision := fun _ => .ok ()
    deprovision := fun _ _ => .ok ()
    prediction_uri := none, healthcheck_uri := none }

/-- Claim C3 is false on the code: with `timeout = 0`,
`poll_service_status` still runs one full round of convergence checks and
returns False when the observed state does not match the administrative
state.  Here the administrative state is RUNNING, the probe observes
INITIALIZING, and `poll_service_status(timeout=0)` returns false — the claim
says it returns true for every service regardless of the observed state. -/
theorem c3_poll_zero_counterexample :
    witnessService.admin_state = .RUNNING ∧
    (witnessService.poll_service_status witnessEnvInitializing 0).1 = false := by
  constructor
  · rfl
  · rfl

/-- Claim C3 (amended): `poll_service_status(timeout=0)` returns immediately
after a single round of convergence checks — true iff the freshly probed
state already matches the administrative state — and performs at most two
probes (no polling loop is entered, no tick is slept). -/
theorem c3_poll_zero_single_round (env : ServiceEnv) (s : BaseService) :
    s.poll_service_status env 0 =
      (match s.poll_round env with
       | (some r, s') => (r, s')
       | (none, s') => (false, s')) ∧
    (s.poll_service_status env 0).2.probe_count ≤ s.probe_count + 2 := by
  constructor
  · rfl
  · show (BaseService.poll_loop env 0 s).2.probe_count ≤ s.probe_count + 2
    unfold BaseService.poll_loop
    rcases h : s.poll_round env with ⟨o, s'⟩
    have hb := poll_round_probe_bound env s
    rw [h] at hb
    cases o <;> simpa using hb

/-- Claim C4: an exception raised by the `check_status` probe inside
`update_status` is fully absorbed: afterwards the status state is FAILED and
`last_error` carries the exception's message text, and `update_status`
itself returns normally (it is total in this embedding — no exception
escapes). -/
theorem c4_probe_exception_absorbed (env : ServiceEnv) (s : BaseService)
    (e : String) (h : env.check_status s.probe_count = .error e) :
    (s.update_status env).status.state = .FAILED ∧
    (s.update_status env).status.last_error = e := by
  unfold BaseService.update_status
  simp [h, ServiceStatus.update_state]

/-- Witness for C4 at a concrete input: a probe that raises "probe blew up"
leaves the service FAILED with that message. -/
theorem c4_witness :
    ({ witnessEnvInitializing with
        check_status := fun _ => .error "probe blew up" } : ServiceEnv).check_status
      witnessService.probe_count = .error "probe blew up" ∧
    (witnessService.update_status
      { witnessEnvInitializing with
        check_status := fun _ => .error "probe blew up" }).status.state = .FAILED ∧
    (witnessService.update_status
      { witnessEnvInitializing with
        check_status := fun _ => .error "probe blew up" }).status.last_error =
      "probe blew up" := by
  refine ⟨rfl, ?_⟩
  exact c4_probe_exception_absorbed
    { witnessEnvInitializing with check_status := fun _ => .error "probe blew up" }
    witnessService "probe blew up" rfl

/-- Claim C5: an exception raised by `provision()` inside `start()`, or by
`deprovision()` inside `stop()`, is recorded by the lifecycle wrapper
(status forced to FAILED with the exception message as `last_error`) and the
same exception is re-raised to the caller — on every such error exit path. -/
theorem c5_provision_failure_recorded_and_reraised :
    (∀ (env : ServiceEnv) (s : BaseService) (t : Nat) (e : String),
      env.provision s.provision_count = .error e →
      (s.start env t).1 = .error e ∧
      (s.start env t).2.status.state = .FAILED ∧
      (s.start env t).2.status.last_error = e) ∧
    (∀ (env : ServiceEnv) (s : BaseService) (t : Nat) (f : Bool) (e : String),
      env.deprovision s.deprovision_count f = .error e →
      (s.stop env t f).1 = .error e ∧
      (s.stop env t f).2.status.state = .FAILED ∧
      (s.stop env t f).2.status.last_error = e) := by
  constructor
  · intro env s t e h
    have hbody : BaseService.start_body env t (applyStatusOpt (some .INITIALIZING) s) =
        (.error e, { s with status := s.status.update_state .INITIALIZING "",
                            admin_state := .RUNNING,
                            provision_count := s.provision_count + 1 }) := by
      unfold BaseService.start_body applyStatusOpt
      simp [h]
    have := wrap_error_status (some .INITIALIZING) (some .RUNNING) .FAILED
      (BaseService.start_body env t) s _ e hbody
    unfold BaseService.start
    rw [this]
    exact ⟨rfl, rfl, rfl⟩
  · intro env s t f e h
    have hbody : BaseService.stop_body env t f (applyStatusOpt (some .TERMINATING) s) =
        (.error e, { s with status := s.status.update_state .TERMINATING "",
                            admin_state := .INACTIVE,
                            deprovision_count := s.deprovision_count + 1 }) := by
      unfold BaseService.stop_body applyStatusOpt
      simp [h]
    have := wrap_error_status (some .TERMINATING) (some .INACTIVE) .FAILED
      (BaseService.stop_body env t f) s _ e hbody
    unfold BaseService.stop
    rw [this]
    exact ⟨rfl, rfl, rfl⟩

/-- Witness for C5 at concrete inputs: a provisioning failure "no docker" is
re-raised by `start` and recorded as FAILED, and a deprovisioning failure
"perm denied" is re-raised by `stop` and recorded as FAILED. -/
theorem c5_witness :
    ((witnessService.start
      { witnessEnvInitializing with provision := fun _ => .error "no docker" }
      0).1 = .error "no docker" ∧
     (witnessService.start
      { witnessEnvInitializing with provision := fun _ => .error "no docker" }
      0).2.status.state = .FAILED) ∧
    ((witnessService.stop
      { witnessEnvInitializing with deprovision := fun _ _ => .error "perm denied" }
      0 true).1 = .error "perm denied" ∧
     (witnessService.stop
      { witnessEnvInitializing with deprovision := fun _ _ => .error "perm denied" }
      0 true).2.status.last_error = "perm denied") := by
  constructor
  · have := c5_provision_failure_recorded_and_reraised.1
      { witnessEnvInitializing with provision := fun _ => .error "no docker" }
      witnessService 0 "no docker" rfl
    exact ⟨this.1, this.2.1⟩
  · have := c5_provision_failure_recorded_and_reraised.2
      { witnessEnvInitializing with deprovision := fun _ _ => .error "perm denied" }
      witnessService 0 true "perm denied" rfl
    exact ⟨this.1, this.2.2⟩

/-- Claim C6: `start(timeout=0)` always sets the administrative state to
RUNNING and invokes `provision()` exactly once, whatever the probe outcome
(the environment is universally quantified), and enters no polling loop (the
probe counter is untouched). -/
theorem c6_start_zero_provisions_once (env : ServiceEnv) (s : BaseService) :
    (s.start env 0).2.admin_state = .RUNNING ∧
    (s.start env 0).2.provision_count = s.provision_count + 1 ∧
    (s.start env 0).2.probe_count = s.probe_count := by
  unfold BaseService.start update_service_status_wrap BaseService.start_body
  cases h : env.provision s.provision_count <;>
    simp [applyStatusOpt, h]

/-- Claim C10: whenever `start` or `stop` returns without raising, the
decorator's declared post-state is the last write to the status: RUNNING
with an empty `last_error` after `start`, INACTIVE with an empty
`last_error` after `stop` — overwriting whatever the polling inside the call
last observed. -/
theorem c10_declared_post_state :
    (∀ (env : ServiceEnv) (t : Nat) (s s' : BaseService),
      s.start env t = (.ok (), s') →
      s'.status.state = .RUNNING ∧ s'.status.last_error = "") ∧
    (∀ (env : ServiceEnv) (t : Nat) (f : Bool) (s s' : BaseService),
      s.stop env t f = (.ok (), s') →
      s'.status.state = .INACTIVE ∧ s'.status.last_error = "") := by
  constructor
  · intro env t s s' h
    have := wrap_ok_status (some .INITIALIZING) .RUNNING .FAILED
      (BaseService.start_body env t) s s' () h
    rw [this]
    exact ⟨rfl, rfl⟩
  · intro env t f s s' h
    have := wrap_ok_status (some .TERMINATING) .INACTIVE .FAILED
      (BaseService.stop_body env t f) s s' () h
    rw [this]
    exact ⟨rfl, rfl⟩

/-- Concrete probe environment observing FAILED: used to show the post-state
overwrites a FAILED observation seen during polling. -/
def witnessEnvFailed : ServiceEnv :=
  { witnessEnvInitializing with check_status := fun _ => .ok (.FAILED, "crashed") }

/-- Witness for C10 at concrete inputs: with a probe that keeps observing
FAILED, `start(timeout=2)` still returns successfully (the timeout is
non-fatal) and the final status is the declared RUNNING post-state with an
empty error, the FAILED observation having been overwritten; similarly
`stop(timeout=2)` ends INACTIVE. -/
theorem c10_witness :
    (witnessService.start witnessEnvFailed 2 =
      ((.ok () : Except String Unit),
        (witnessService.start witnessEnvFailed 2).2) ∧
     (witnessService.start witnessEnvFailed 2).2.status.state = .RUNNING ∧
     (witnessService.start witnessEnvFailed 2).2.status.last_error = "") ∧
    (witnessService.stop witnessEnvFailed 2 false =
      ((.ok () : Except String Unit),
        (witnessService.stop witnessEnvFailed 2 false).2) ∧
     (witnessService.stop witnessEnvFailed 2 false).2.status.state = .INACTIVE ∧
     (witnessService.stop witnessEnvFailed 2 false).2.status.last_error = "") := by
  constructor
  · have h : witnessService.start witnessEnvFailed 2 =
        ((.ok () : Except String Unit),
          (witnessService.start witnessEnvFailed 2).2) := rfl
    have := c10_declared_post_state.1 witnessEnvFailed 2 witnessService
      (witnessService.start witnessEnvFailed 2).2 h
    exact ⟨h, this⟩
  · have h : witnessService.stop witnessEnvFailed 2 false =
        ((.ok () : Except String Unit),
          (witnessService.stop witnessEnvFailed 2 false).2) := rfl
    have := c10_declared_post_state.2 witnessEnvFailed 2 false witnessService
      (witnessService.stop witnessEnvFailed 2 false).2 h
    exact ⟨h, this⟩

/-! ## Revival and reconciliation lemmas -/

theorem from_model_eq_ok (r : ServiceRecord) (h : SourceOk r) :
    r.from_model = .ok r.revived := by
  unfold SourceOk at h
  unfold ServiceRecord.from_model ServiceRecord.revived
  cases hs : r.service_source with
  | none =>
    rw [hs] at h
    simp at h
  | some src =>
    rw [hs] at h
    simp only [Option.getD_some] at h
    simp [h, hs]

theorem sourceOk_of_from_model_ok (r : ServiceRecord) (s : BaseService)
    (h : r.from_model = .ok s) : SourceOk r := by
  unfold ServiceRecord.from_model at h
  unfold SourceOk
  cases hs : r.service_source with
  | none => rw [hs] at h; simp at h
  | some src =>
    rw [hs] at h
    by_cases he : src = ""
    · rw [he] at h; simp at h
    · simp [hs, he]

theorem probeRec_eq_ok (env : DeployerEnv) (r : ServiceRecord) (h : SourceOk r) :
    probeRec env r = .ok (r.probed env) := by
  unfold probeRec ServiceRecord.probed
  rw [from_model_eq_ok r h]
  rfl

theorem probeRec_ok_cases (env : DeployerEnv) (r : ServiceRecord) (s : BaseService)
    (h : probeRec env r = .ok s) : SourceOk r ∧ s = r.probed env := by
  have hsrc : SourceOk r := by
    unfold probeRec at h
    cases hm : r.from_model with
    | error e => rw [hm] at h; simp [Except.map] at h
    | ok s0 => exact sourceOk_of_from_model_ok r s0 hm
  refine ⟨hsrc, ?_⟩
  rw [probeRec_eq_ok env r hsrc] at h
  have := Except.ok.inj h
  exact this.symm

theorem probed_uuid (env : DeployerEnv) (r : ServiceRecord) :
    (r.probed env).uuid = r.id := by
  unfold ServiceRecord.probed
  rw [update_status_uuid]
  rfl

theorem probed_config (env : DeployerEnv) (r : ServiceRecord) :
    (r.probed env).config = r.config := by
  unfold ServiceRecord.probed
  rw [update_status_config]
  rfl

theorem probed_admin (env : DeployerEnv) (r : ServiceRecord) :
    (r.probed env).admin_state = r.admin_state := by
  unfold ServiceRecord.probed
  rw [update_status_admin]
  rfl

theorem probed_endpoint (env : DeployerEnv) (r : ServiceRecord) :
    (r.probed env).has_endpoint = r.endpoint := by
  unfold ServiceRecord.probed
  rw [update_status_endpoint]
  rfl

theorem probed_source (env : DeployerEnv) (r : ServiceRecord) :
    (r.probed env).source = r.service_source.getD "" := by
  unfold ServiceRecord.probed
  rw [update_status_source]
  rfl

theorem applyUpdate_id (u : ServiceUpdate) (r : ServiceRecord) :
    (applyUpdate u r).id = r.id := rfl

theorem applyUpdate_findWriteBack (env : DeployerEnv) (r : ServiceRecord) :
    applyUpdate (findWriteBack (r.probed env)) r =
      { r with status := (r.probed env).status } := by
  unfold applyUpdate findWriteBack endpointUpdateField
  rw [probed_config, probed_admin, probed_endpoint]
  cases hb : r.endpoint <;> simp [hb]

/-! ## Basic findLoop and store lemmas -/

theorem update_service_ids (st : Store) (id : Nat) (u : ServiceUpdate) :
    (st.update_service id u).records.map (fun r => r.id) =
      st.records.map (fun r => r.id) := by
  unfold Store.update_service
  rw [List.map_map]
  apply List.map_congr_left
  intro r _
  by_cases h : r.id = id <;> simp [h, applyUpdate_id]

theorem update_service_next (st : Store) (id : Nat) (u : ServiceUpdate) :
    (st.update_service id u).next_id = st.next_id ∧
      (st.update_service id u).next_created = st.next_created :=
  ⟨rfl, rfl⟩

theorem findLoop_trace (env : DeployerEnv) :
    ∀ (recs : List ServiceRecord) (w : World) (acc : List BaseService),
      (findLoop env recs w acc).2.trace = w.trace := by
  intro recs
  induction recs with
  | nil => intro w acc; rfl
  | cons r rest ih =>
    intro w acc
    unfold findLoop
    cases hp : probeRec env r with
    | error e => rfl
    | ok s =>
      by_cases hst : s.status = r.status <;> simp [hst, ih]

theorem findLoop_store_shape (env : DeployerEnv) :
    ∀ (recs : List ServiceRecord) (w : World) (acc : List BaseService),
      (findLoop env recs w acc).2.store.records.map (fun r => r.id) =
        w.store.records.map (fun r => r.id) ∧
      (findLoop env recs w acc).2.store.next_id = w.store.next_id ∧
      (findLoop env recs w acc).2.store.next_created = w.store.next_created := by
  intro recs
  induction recs with
  | nil => intro w acc; exact ⟨rfl, rfl, rfl⟩
  | cons r rest ih =>
    intro w acc
    unfold findLoop
    cases hp : probeRec env r with
    | error e => exact ⟨rfl, rfl, rfl⟩
    | ok s =>
      by_cases hst : s.status = r.status
      · simp only [hst, if_pos rfl]
        simpa [hst] using ih w (s :: acc)
      · simp only [if_neg hst]
        have h2 := ih { w with store := w.store.update_service r.id (findWriteBack s) } (s :: acc)
        refine ⟨?_, ?_, ?_⟩
        · rw [h2.1]
          exact update_service_ids w.store r.id (findWriteBack s)
        · exact h2.2.1
        · exact h2.2.2

theorem findLoop_uuid_mem (env : DeployerEnv) :
    ∀ (recs : List ServiceRecord) (w : World) (acc : List BaseService)
      (l : List BaseService) (w' : World),
      findLoop env recs w acc = (.ok l, w') →
      ∀ s ∈ l, (∃ r ∈ recs, s.uuid = r.id) ∨ s ∈ acc := by
  intro recs
  induction recs with
  | nil =>
    intro w acc l w' h s hs
    unfold findLoop at h
    have hl : l = acc.reverse := by
      have := congrArg Prod.fst h
      simpa using this.symm
    right
    rw [hl] at hs
    simpa using hs
  | cons r rest ih =>
    intro w acc l w' h s hs
    unfold findLoop at h
    cases hp : probeRec env r with
    | error e => rw [hp] at h; simp at h
    | ok sr =>
      rw [hp] at h
      dsimp only at h
      have hcase := probeRec_ok_cases env r sr hp
      by_cases hst : sr.status = r.status
      · rw [if_pos hst] at h
        rcases ih w (sr :: acc) l w' h s hs with hmem | hacc
        · rcases hmem with ⟨r', hr', he⟩
          exact Or.inl ⟨r', List.mem_cons_of_mem r hr', he⟩
        · rcases List.mem_cons.1 hacc with hsr | hacc2
          · left
            refine ⟨r, List.mem_cons_self r rest, ?_⟩
            rw [hsr, hcase.2, probed_uuid]
          · exact Or.inr hacc2
      · rw [if_neg hst] at h
        rcases ih _ (sr :: acc) l w' h s hs with hmem | hacc
        · rcases hmem with ⟨r', hr', he⟩
          exact Or.inl ⟨r', List.mem_cons_of_mem r hr', he⟩
        · rcases List.mem_cons.1 hacc with hsr | hacc2
          · left
            refine ⟨r, List.mem_cons_self r rest, ?_⟩
            rw [hsr, hcase.2, probed_uuid]
          · exact Or.inr hacc2

theorem findLoop_sourceOk (env : DeployerEnv) :
    ∀ (recs : List ServiceRecord) (w : World) (acc : List BaseService)
      (l : List BaseService) (w' : World),
      findLoop env recs w acc = (.ok l, w') →
      ∀ r ∈ recs, SourceOk r := by
  intro recs
  induction recs with
  | nil => intro w acc l w' _ r hr; exact absurd hr (List.not_mem_nil r)
  | cons r0 rest ih =>
    intro w acc l w' h r hr
    unfold findLoop at h
    cases hp : probeRec env r0 with
    | error e => rw [hp] at h; simp at h
    | ok sr =>
      rw [hp] at h
      dsimp only at h
      rcases List.mem_cons.1 hr with he | hmem
      · rw [he]
        exact (probeRec_ok_cases env r0 sr hp).1
      · by_cases hst : sr.status = r0.status
        · rw [if_pos hst] at h
          exact ih w (sr :: acc) l w' h r hmem
        · rw [if_neg hst] at h
          exact ih _ (sr :: acc) l w' h r hmem

/-- The pointwise store effect of a completed `find_model_server` loop over
the records with the given ids: processed records are reconciled, all others
untouched. -/
def reconcileStore (env : DeployerEnv) (ids : List Nat) (st : Store) : Store :=
  { st with records := st.records.map fun rec =>
      if rec.id ∈ ids then reconcileRecord env rec else rec }

/-- The full characterization of the `find_model_server` loop: when every
matched record is revivable, the records the loop will process have pairwise
distinct ids, and the current store agrees with the snapshot on those ids,
the loop succeeds, returns exactly the revived-and-probed services in
snapshot order, leaves the trace alone, and rewrites the store pointwise:
every record whose id was processed is reconciled (status corrected iff the
probe differed), every other record is untouched. -/
theorem findLoop_spec (env : DeployerEnv) :
    ∀ (recs : List ServiceRecord) (w : World) (acc : List BaseService),
    (∀ r ∈ recs, SourceOk r) →
    (∀ r ∈ recs, ∀ rec ∈ w.store.records, rec.id = r.id → rec = r) →
    (recs.map (fun r => r.id)).Nodup →
    findLoop env recs w acc =
      (.ok (acc.reverse ++ recs.map (fun r => r.probed env)),
       { w with store := reconcileStore env (recs.map (fun r => r.id)) w.store }) := by
  intro recs
  induction recs with
  | nil =>
    intro w acc _ _ _
    unfold findLoop reconcileStore
    simp
  | cons r rest ih =>
    intro w acc hsrc hagree hnd
    have hsrcr : SourceOk r := hsrc r (List.mem_cons_self r rest)
    have hnotmem : r.id ∉ rest.map (fun x => x.id) := (List.nodup_cons.1 hnd).1
    have hndtail : (rest.map (fun x => x.id)).Nodup := (List.nodup_cons.1 hnd).2
    unfold findLoop
    rw [probeRec_eq_ok env r hsrcr]
    dsimp only
    by_cases hst : (r.probed env).status = r.status
    · rw [if_pos hst]
      rw [ih w ((r.probed env) :: acc)
        (fun r' h => hsrc r' (List.mem_cons_of_mem r h))
        (fun r' h => hagree r' (List.mem_cons_of_mem r h)) hndtail]
      simp only [Prod.mk.injEq, Except.ok.injEq, World.mk.injEq, and_true, true_and]
      refine ⟨?_, ?_⟩
      · simp
      · unfold reconcileStore
        simp only [Store.mk.injEq, and_true, true_and]
        apply List.map_congr_left
        intro rec hrec
        by_cases hid : rec.id = r.id
        · have heq : rec = r := hagree r (List.mem_cons_self r rest) rec hrec hid
          rw [heq]
          rw [if_neg (by simpa using hnotmem), if_pos (by simp)]
          unfold reconcileRecord
          rw [if_pos hst]
        · have hmem : (rec.id ∈ rest.map (fun x => x.id)) ↔
              (rec.id ∈ (r :: rest).map (fun x => x.id)) := by
            simp [hid]
          by_cases hmr : rec.id ∈ rest.map (fun x => x.id)
          · rw [if_pos hmr, if_pos (hmem.1 hmr)]
          · rw [if_neg hmr, if_neg (fun hc => hmr (hmem.2 hc))]
    · rw [if_neg hst]
      have hagree1 : ∀ r' ∈ rest,
          ∀ rec ∈ (w.store.update_service r.id
            (findWriteBack (r.probed env))).records, rec.id = r'.id → rec = r' := by
        intro r' hr' rec hrec hid
        unfold Store.update_service at hrec
        simp only [List.mem_map] at hrec
        rcases hrec with ⟨rec0, hrec0, hg⟩
        by_cases h0 : rec0.id = r.id
        · exfalso
          rw [if_pos h0] at hg
          have hrid : rec.id = r.id := by
            rw [← hg, applyUpdate_id]
            exact h0
          have : r.id ∈ rest.map (fun x => x.id) := by
            rw [← hrid, hid]
            exact List.mem_map_of_mem (fun x => x.id) hr'
          exact hnotmem this
        · rw [if_neg h0] at hg
          rw [← hg]
          exact hagree r' (List.mem_cons_of_mem r hr') rec0 hrec0 (by rw [hg]; exact hid)
      rw [ih _ ((r.probed env) :: acc)
        (fun r' h => hsrc r' (List.mem_cons_of_mem r h)) hagree1 hndtail]
      simp only [Prod.mk.injEq, Except.ok.injEq, World.mk.injEq, and_true, true_and]
      refine ⟨?_, ?_⟩
      · simp
      · unfold reconcileStore Store.update_service
        simp only [Store.mk.injEq, and_true, true_and]
        rw [List.map_map]
        apply List.map_congr_left
        intro rec hrec
        simp only [Function.comp]
        by_cases hid : rec.id = r.id
        · have heq : rec = r := hagree r (List.mem_cons_self r rest) rec hrec hid
          rw [heq]
          rw [if_pos rfl]
          rw [applyUpdate_findWriteBack env r]
          have hid2 : ({ r with status := (r.probed env).status } : ServiceRecord).id =
              r.id := rfl
          rw [if_neg (by rw [hid2]; simpa using hnotmem)]
          rw [if_pos (by simp)]
          unfold reconcileRecord
          rw [if_neg hst]
        · rw [if_neg hid]
          have hmem : (rec.id ∈ rest.map (fun x => x.id)) ↔
              (rec.id ∈ (r :: rest).map (fun x => x.id)) := by
            simp [hid]
          by_cases hmr : rec.id ∈ rest.map (fun x => x.id)
          · rw [if_pos hmr, if_pos (hmem.1 hmr)]
          · rw [if_neg hmr, if_neg (fun hc => hmr (hmem.2 hc))]

/-- A store whose record ids are pairwise distinct agrees with any of its
filtered sublists on ids. -/
theorem nodup_id_agree (st : Store)
    (hnd : (st.records.map (fun r => r.id)).Nodup) (p : ServiceRecord → Bool) :
    ∀ r ∈ st.records.filter p, ∀ rec ∈ st.records, rec.id = r.id → rec = r := by
  intro r hr rec hrec hid
  exact List.inj_on_of_nodup_map hnd hrec (List.mem_of_mem_filter hr) hid

theorem nodup_filtered_ids (st : Store)
    (hnd : (st.records.map (fun r => r.id)).Nodup) (p : ServiceRecord → Bool) :
    ((st.records.filter p).map (fun r => r.id)).Nodup := by
  refine List.Nodup.sublist ?_ hnd
  exact List.Sublist.map (fun r => r.id) (List.filter_sublist st.records)

/-- Characterization of `find_model_server` on a well-formed store: the call
succeeds, returns exactly the revived-and-probed services of the matching
records in store order (newest-created-first), adds no trace events, and
reconciles the store pointwise. -/
theorem find_model_server_spec (env : DeployerEnv) (w : World) (running : Bool)
    (service_uuid : Option Nat)
    (pipeline_name run_name pipeline_step_name endpoint_name_or_model_name
     model_name model_version : Option String)
    (service_type : Option ServiceType) (type_p flavor_p : Option String)
    (f : ServiceFilter)
    (hf : f = findFilter env running service_uuid pipeline_name run_name
      pipeline_step_name endpoint_name_or_model_name model_name model_version
      service_type type_p flavor_p)
    (hnd : (w.store.records.map (fun r => r.id)).Nodup)
    (hsrc : ∀ r ∈ w.store.list_services f, SourceOk r) :
    find_model_server env w running service_uuid pipeline_name run_name
      pipeline_step_name endpoint_name_or_model_name model_name model_version
      service_type type_p flavor_p =
      (.ok ((w.store.list_services f).map (fun r => r.probed env)),
       { w with store := (reconcileStore env
          ((w.store.list_services f).map (fun r => r.id)) w.store) }) := by
  unfold find_model_server
  rw [← hf]
  exact findLoop_spec env (w.store.list_services f) w []
    hsrc
    (nodup_id_agree w.store hnd (recordMatches f))
    (nodup_filtered_ids w.store hnd (recordMatches f))

/-! ## Claim C7: find_model_server revives, probes and reconciles -/

/-- Claim C7: for every record the store returns to `find_model_server`
(stated for a store with pairwise-distinct record ids and revivable matched
records), the deployer revives a typed service from the record and forces a
fresh probe (`r.probed env` is by definition `update_status` applied to the
`from_model` revival), writes the record back iff the freshly probed status
differs from the recorded one (`reconcileStore`/`reconcileRecord`), and all
revived services are returned, in store order — newest-created-first. -/
theorem c7_find_reconciles (env : DeployerEnv) (w : World) (running : Bool)
    (service_uuid : Option Nat)
    (pipeline_name run_name pipeline_step_name endpoint_name_or_model_name
     model_name model_version : Option String)
    (service_type : Option ServiceType) (type_p flavor_p : Option String)
    (f : ServiceFilter)
    (hf : f = findFilter env running service_uuid pipeline_name run_name
      pipeline_step_name endpoint_name_or_model_name model_name model_version
      service_type type_p flavor_p)
    (hnd : (w.store.records.map (fun r => r.id)).Nodup)
    (hsrc : ∀ r ∈ w.store.list_services f, SourceOk r) :
    find_model_server env w running service_uuid pipeline_name run_name
      pipeline_step_name endpoint_name_or_model_name model_name model_version
      service_type type_p flavor_p =
      (.ok ((w.store.list_services f).map (fun r => r.probed env)),
       { w with store := (reconcileStore env
          ((w.store.list_services f).map (fun r => r.id)) w.store) }) :=
  find_model_server_spec env w running service_uuid pipeline_name run_name
    pipeline_step_name endpoint_name_or_model_name model_name model_version
    service_type type_p flavor_p f hf hnd hsrc

/-- A one-record world for deployer witnesses: a persisted, revivable record
whose stored status (INACTIVE) lags the probe (RUNNING). -/
def witnessServiceType : ServiceType :=
  { name := "t", type := "model-serving", flavor := "local", description := "" }

def witnessRecord : ServiceRecord :=
  { id := 7, name := "svc", service_source := some "mod.Cls",
    config := witnessConfig, admin_state := .RUNNING,
    status := { state := .INACTIVE, last_error := "" }, endpoint := false,
    service_type := witnessServiceType,
    model_version_id := none, prediction_url := none, health_check_url := none,
    created := 0 }

def witnessWorld : World :=
  { store := { records := [witnessRecord], next_id := 8, next_created := 1 },
    trace := [] }

/-- A probe environment observing RUNNING for every service. -/
def witnessEnvRunning : ServiceEnv :=
  { witnessEnvInitializing with check_status := fun _ => .ok (.RUNNING, "") }

/-- A deployer environment with well-behaved backends over the RUNNING
probe. -/
def witnessDeployedService (id : Nat) (c : ServiceConfig) : BaseService :=
  { uuid := id, admin_state := .RUNNING, config := c,
    status := { state := .RUNNING, last_error := "" },
    has_endpoint := false, source := "mod.Cls", probe_count := 0,
    provision_count := 0, deprovision_count := 0 }

def witnessDeployerEnv : DeployerEnv :=
  { senv := fun _ => witnessEnvRunning
    resolver := fun _ _ => none
    perform_deploy := fun id c => .ok (witnessDeployedService id c)
    perform_delete := fun _ _ => .ok ()
    perform_stop := fun s _ => .ok s
    perform_start := fun s => .ok s }

/-- Witness for C7 at a concrete input: the store has one matching record
with a lagging INACTIVE status; `find_model_server` returns the revived and
probed service and writes the corrected RUNNING status back. -/
theorem c7_witness :
    ((witnessWorld.store.records.map (fun r => r.id)).Nodup ∧
     (∀ r ∈ witnessWorld.store.list_services (findFilter witnessDeployerEnv
        false (some 7) none none none none none none none none none),
        SourceOk r)) ∧
    find_model_server witnessDeployerEnv witnessWorld false (some 7) none none
      none none none none none none none =
      (.ok ((witnessWorld.store.list_services (findFilter witnessDeployerEnv
          false (some 7) none none none none none none none none none)).map
        (fun r => r.probed witnessDeployerEnv)),
       { witnessWorld with store := (reconcileStore witnessDeployerEnv
          ((witnessWorld.store.list_services (findFilter witnessDeployerEnv
            false (some 7) none none none none none none none none none)).map
            (fun r => r.id)) witnessWorld.store) }) := by
  refine ⟨⟨by decide, by decide⟩, ?_⟩
  exact c7_find_reconciles witnessDeployerEnv witnessWorld false (some 7) none
    none none none none none none none none _ rfl (by decide) (by decide)

/-! ## Claim C9: unknown uuid is a fatal wrapped error -/

/-- Looking up a uuid absent from the store returns an empty result and
leaves the world untouched. -/
theorem find_by_uuid_empty (env : DeployerEnv) (w : World) (uuid : Nat)
    (h : ∀ r ∈ w.store.records, r.id ≠ uuid) :
    find_model_server env w false (some uuid) none none none none none none
      none none none = (.ok [], w) := by
  unfold find_model_server
  have hlist : w.store.list_services (findFilter env false (some uuid) none
      none none none none none none none none) = [] := by
    unfold Store.list_services
    rw [List.filter_eq_nil_iff]
    intro r hr
    unfold recordMatches findFilter matchOpt
    have : uuid ≠ r.id := fun he => h r hr he.symm
    simp [this]
  dsimp only
  rw [hlist]
  rfl

/-- Claim C9: for a uuid with no matching service record, each of
`stop_model_server`, `start_model_server` and `delete_model_server` fails
with a RuntimeError that names the uuid and wraps the original underlying
cause (the IndexError text "list index out of range" raised by indexing the
empty lookup result), performs no backend call and leaves the world exactly
as it was — the operation is not retried. -/
theorem c9_unknown_uuid_fatal (env : DeployerEnv) (w : World) (uuid : Nat)
    (force : Bool) (h : ∀ r ∈ w.store.records, r.id ≠ uuid) :
    stop_model_server env w uuid force =
      (.error ("Failed to stop model server with UUID " ++ toString uuid ++
        ": " ++ "list index out of range"), w) ∧
    start_model_server env w uuid =
      (.error ("Failed to start model server with UUID " ++ toString uuid ++
        ": " ++ "list index out of range"), w) ∧
    delete_model_server env w uuid force =
      (.error ("Failed to delete model server with UUID " ++ toString uuid ++
        ": " ++ "list index out of range"), w) := by
  refine ⟨?_, ?_, ?_⟩
  · unfold stop_model_server
    rw [find_by_uuid_empty env w uuid h]
  · unfold start_model_server
    rw [find_by_uuid_empty env w uuid h]
  · unfold delete_model_server
    rw [find_by_uuid_empty env w uuid h]


/-- Witness for C9 at a concrete input: uuid 42 is absent from the one-record
witness store, and all three operations fail with the wrapped message naming
it. -/
theorem c9_witness :
    (∀ r ∈ witnessWorld.store.records, r.id ≠ 42) ∧
    stop_model_server witnessDeployerEnv witnessWorld 42 false =
      (.error "Failed to stop model server with UUID 42: list index out of range",
       witnessWorld) ∧
    delete_model_server witnessDeployerEnv witnessWorld 42 false =
      (.error "Failed to delete model server with UUID 42: list index out of range",
       witnessWorld) := by
  have h : ∀ r ∈ witnessWorld.store.records, r.id ≠ 42 := by decide
  have hall := c9_unknown_uuid_fatal witnessDeployerEnv witnessWorld 42 false h
  exact ⟨h, hall.1.trans (by decide), hall.2.2.trans (by decide)⟩

/-! ## Preservation lemmas for polling and start -/

theorem update_status_provision_count (env : ServiceEnv) (s : BaseService) :
    (s.update_status env).provision_count = s.provision_count := by
  unfold BaseService.update_status
  cases h : env.check_status s.probe_count <;> simp [h]
  case ok p =>
    split
    · rfl
    · split
      · split <;> rfl
      · rfl

/-- Any field the probe does not touch is preserved by a full polling round
and hence by the polling loop. -/
theorem poll_round_preserves {α : Type} (env : ServiceEnv) (f : BaseService → α)
    (hf : ∀ u : BaseService, f (u.update_status env) = f u) (s : BaseService) :
    f (s.poll_round env).2 = f s := by
  have key1 : ∀ (u v : BaseService) (b : Bool), u.is_running env = (b, v) → f v = f u := by
    intro u v b hv
    have h2 : (u.is_running env).2 = v := by rw [hv]
    rw [is_running_snd] at h2
    rw [← h2, hf]
  have key2 : ∀ (u v : BaseService) (b : Bool), u.is_stopped env = (b, v) → f v = f u := by
    intro u v b hv
    have h2 : (u.is_stopped env).2 = v := by rw [hv]
    rw [is_stopped_snd] at h2
    rw [← h2, hf]
  have key3 : ∀ (u v : BaseService) (b : Bool), u.is_failed env = (b, v) → f v = f u := by
    intro u v b hv
    have h2 : (u.is_failed env).2 = v := by rw [hv]
    rw [is_failed_snd] at h2
    rw [← h2, hf]
  unfold BaseService.poll_round
  split
  · split <;> rename_i _ s1 h1
    · simp [key1 _ _ _ h1]
    · split <;> rename_i s2 h2 <;>
        simp [key3 _ _ _ h2, key1 _ _ _ h1]
  · split
    · split <;> rename_i _ s1 h1
      · simp [key2 _ _ _ h1]
      · split <;> rename_i s2 h2 <;>
          simp [key3 _ _ _ h2, key2 _ _ _ h1]
    · split <;> rename_i s2 h2 <;> simp [key3 _ _ _ h2]

theorem poll_loop_preserves {α : Type} (env : ServiceEnv) (f : BaseService → α)
    (hf : ∀ u : BaseService, f (u.update_status env) = f u) :
    ∀ (t : Nat) (s : BaseService), f (BaseService.poll_loop env t s).2 = f s := by
  intro t
  induction t with
  | zero =>
    intro s
    unfold BaseService.poll_loop
    have hr := poll_round_preserves env f hf s
    rcases h : s.poll_round env with ⟨o, s'⟩
    rw [h] at hr
    cases o <;> simpa using hr
  | succ t ih =>
    intro s
    unfold BaseService.poll_loop
    have hr := poll_round_preserves env f hf s
    rcases h : s.poll_round env with ⟨o, s'⟩
    rw [h] at hr
    cases o with
    | none =>
      simp only []
      rw [ih s']
      simpa using hr
    | some r => simpa using hr

/-- The shape of every `start` outcome: the uuid, config and endpoint are
those of the input service, the administrative state is RUNNING, and the
provisioning oracle was invoked exactly once more. -/
theorem start_shape (env : ServiceEnv) (t : Nat) (s : BaseService)
    (r : Except String Unit) (s' : BaseService) (h : s.start env t = (r, s')) :
    s'.uuid = s.uuid ∧ s'.config = s.config ∧
    s'.provision_count = s.provision_count + 1 ∧ s'.admin_state = .RUNNING := by
  have huuid := poll_loop_preserves env (fun u => u.uuid) (update_status_uuid env)
  have hconfig := poll_loop_preserves env (fun u => u.config) (update_status_config env)
  have hprov := poll_loop_preserves env (fun u => u.provision_count)
    (update_status_provision_count env)
  have hadmin := poll_loop_preserves env (fun u => u.admin_state) (update_status_admin env)
  unfold BaseService.start update_service_status_wrap BaseService.start_body at h
  dsimp only at h
  cases hp : env.provision (applyStatusOpt (some .INITIALIZING) s).provision_count with
  | error e =>
    rw [hp] at h
    dsimp only at h
    have h2 := congrArg Prod.snd h
    dsimp at h2
    rw [← h2]
    exact ⟨rfl, rfl, rfl, rfl⟩
  | ok u =>
    rw [hp] at h
    dsimp only at h
    by_cases ht : t > 0
    · rw [if_pos ht] at h
      have h2 := congrArg Prod.snd h
      dsimp at h2
      rw [← h2]
      unfold BaseService.poll_service_status applyStatusOpt
      refine ⟨?_, ?_, ?_, ?_⟩
      · exact huuid t _
      · exact hconfig t _
      · exact hprov t _
      · exact hadmin t _
    · rw [if_neg ht] at h
      have h2 := congrArg Prod.snd h
      dsimp at h2
      rw [← h2]
      exact ⟨rfl, rfl, rfl, rfl⟩

theorem update_preserves_uuid (s : BaseService) (c : ServiceConfig) :
    (s.update c).uuid = s.uuid := rfl

/-! ## Claim C1: deploy_model with replace replaces in place -/

/-- Claim C1: when `deploy_model(config, service_type, replace := true,
timeout)` finds at least one existing service with the same logical identity
(the `find_model_server` call with exactly the identity filters), and the
backend delete and the restart succeed, the deployer performs exactly one
`perform_delete_model` call with `force = true` on the newest matching
service (the head of the newest-created-first result — the single new trace
event), then exactly one `update(config)` followed by exactly one
`start(timeout)` on that same service object (the returned service is
literally the one-update-one-start image of the found head: its config is the
new `config` and the provisioning oracle ran exactly once), returns a service
with the same uuid as the existing one, and creates no new service record
(the stored record ids and the id generator are unchanged). -/
theorem c1_deploy_replace_semantics (env : DeployerEnv) (w w₁ : World)
    (config : ServiceConfig) (stype : ServiceType) (timeout : Nat)
    (s s₁ : BaseService) (rest : List BaseService)
    (hfind : find_model_server env w false none (some config.pipeline_name)
      (some config.run_name) (some config.pipeline_step_name) none
      (some config.model_name) (some config.model_version) (some stype)
      none none = (.ok (s :: rest), w₁))
    (hdel : env.perform_delete s.uuid true = .ok ())
    (hstart : (s.update config).start (env.senv s.uuid) timeout = (.ok (), s₁)) :
    deploy_model env w config stype true timeout =
      (.ok s₁, (finalizeDeploy env
        { w₁ with trace := w₁.trace ++ [.performDelete s.uuid true] } s₁).2) ∧
    s₁.uuid = s.uuid ∧
    (finalizeDeploy env
      { w₁ with trace := w₁.trace ++ [.performDelete s.uuid true] } s₁).2.trace =
      w₁.trace ++ [.performDelete s.uuid true] ∧
    (finalizeDeploy env
      { w₁ with trace := w₁.trace ++ [.performDelete s.uuid true] } s₁).2.store.records.map
        (fun r => r.id) = w₁.store.records.map (fun r => r.id) ∧
    (finalizeDeploy env
      { w₁ with trace := w₁.trace ++ [.performDelete s.uuid true] } s₁).2.store.next_id =
      w₁.store.next_id ∧
    s₁.provision_count = s.provision_count + 1 ∧
    s₁.config = config := by
  have hshape := start_shape (env.senv s.uuid) timeout (s.update config) (.ok ()) s₁ hstart
  refine ⟨?_, ?_, ?_, ?_, ?_, ?_, ?_⟩
  · unfold deploy_model
    rw [hfind]
    dsimp only
    rw [if_pos rfl]
    rw [hdel]
    dsimp only
    rw [show (BaseService.update s config).uuid = s.uuid from rfl]
    rw [hstart]
    rfl
  · rw [hshape.1]
    rfl
  · rfl
  · exact update_service_ids _ _ _
  · rfl
  · exact hshape.2.2.1
  · rw [hshape.2.1]
    rfl

/-- The service found and probed by the C1/C2 witness scenarios. -/
def witnessProbedService : BaseService :=
  witnessRecord.probed witnessDeployerEnv

/-- The world after the witness `find_model_server` call. -/
def witnessFindWorld : World :=
  (find_model_server witnessDeployerEnv witnessWorld false none
    (some witnessConfig.pipeline_name) (some witnessConfig.run_name)
    (some witnessConfig.pipeline_step_name) none
    (some witnessConfig.model_name) (some witnessConfig.model_version)
    (some witnessServiceType) none none).2

/-- The service returned by the witness replace-deployment. -/
def c1ResultService : BaseService :=
  ((witnessProbedService.update witnessConfig).start
    (witnessDeployerEnv.senv witnessProbedService.uuid) 0).2

/-- Witness for C1 at a concrete input: the witness store holds one matching
record (id 7); `deploy_model` with `replace = true` deletes it once with
force, updates and starts it, and returns a service with uuid 7 while the
store still holds exactly the record id 7. -/
theorem c1_witness :
    find_model_server witnessDeployerEnv witnessWorld false none
      (some witnessConfig.pipeline_name) (some witnessConfig.run_name)
      (some witnessConfig.pipeline_step_name) none
      (some witnessConfig.model_name) (some witnessConfig.model_version)
      (some witnessServiceType) none none =
      (.ok [witnessProbedService], witnessFindWorld) ∧
    (deploy_model witnessDeployerEnv witnessWorld witnessConfig
      witnessServiceType true 0).1 = .ok c1ResultService ∧
    c1ResultService.uuid = 7 ∧
    (deploy_model witnessDeployerEnv witnessWorld witnessConfig
      witnessServiceType true 0).2.trace = [.performDelete 7 true] ∧
    (deploy_model witnessDeployerEnv witnessWorld witnessConfig
      witnessServiceType true 0).2.store.records.map (fun r => r.id) = [7] := by
  have hfind : find_model_server witnessDeployerEnv witnessWorld false none
      (some witnessConfig.pipeline_name) (some witnessConfig.run_name)
      (some witnessConfig.pipeline_step_name) none
      (some witnessConfig.model_name) (some witnessConfig.model_version)
      (some witnessServiceType) none none =
      (.ok [witnessProbedService], witnessFindWorld) := by decide
  have hdel : witnessDeployerEnv.perform_delete witnessProbedService.uuid true =
      .ok () := rfl
  have hstart : (witnessProbedService.update witnessConfig).start
      (witnessDeployerEnv.senv witnessProbedService.uuid) 0 =
      (.ok (), c1ResultService) := by decide
  have hmain := c1_deploy_replace_semantics witnessDeployerEnv witnessWorld
    witnessFindWorld witnessConfig witnessServiceType 0 witnessProbedService
    c1ResultService [] hfind hdel hstart
  refine ⟨hfind, ?_, ?_, ?_, ?_⟩
  · rw [hmain.1]
  · rw [hmain.2.1]
    decide
  · rw [hmain.1]
    exact hmain.2.2.1.trans (by decide)
  · rw [hmain.1]
    exact hmain.2.2.2.1.trans (by decide)

/-! ## Claim C8: delete_model_server is permanent -/

/-- The argument pack of one `find_model_server` call. -/
structure FindArgs where
  running : Bool
  service_uuid : Option Nat
  pipeline_name : Option String
  run_name : Option String
  pipeline_step_name : Option String
  endpoint_name_or_model_name : Option String
  model_name : Option String
  model_version : Option String
  service_type : Option ServiceType
  type_p : Option String
  flavor_p : Option String

/-- One public operation of the deployer API, for reasoning about arbitrary
subsequent call sequences. -/
inductive DeployerOp where
  | deployOp (config : ServiceConfig) (stype : ServiceType) (replace : Bool)
      (timeout : Nat)
  | stopOp (uuid : Nat) (force : Bool)
  | startOp (uuid : Nat)
  | deleteOp (uuid : Nat) (force : Bool)
  | findOp (a : FindArgs)

/-- Run one deployer operation for its effect on the world. -/
def runOp (env : DeployerEnv) (w : World) : DeployerOp → World
  | .deployOp c st rep t => (deploy_model env w c st rep t).2
  | .stopOp u f => (stop_model_server env w u f).2
  | .startOp u => (start_model_server env w u).2
  | .deleteOp u f => (delete_model_server env w u f).2
  | .findOp a => (find_model_server env w a.running a.service_uuid
      a.pipeline_name a.run_name a.pipeline_step_name
      a.endpoint_name_or_model_name a.model_name a.model_version
      a.service_type a.type_p a.flavor_p).2

/-- Run a sequence of deployer operations. -/
def runOps (env : DeployerEnv) : List DeployerOp → World → World
  | [], w => w
  | op :: ops, w => runOps env ops (runOp env w op)

/-- The uuid `u` is gone from the store and can never be reissued: no record
carries it and the id generator is already past it. -/
def Absent (u : Nat) (w : World) : Prop :=
  (∀ r ∈ w.store.records, r.id ≠ u) ∧ u < w.store.next_id

theorem absent_of_shape (u : Nat) (w w' : World)
    (hids : w'.store.records.map (fun r => r.id) =
      w.store.records.map (fun r => r.id))
    (hnext : w'.store.next_id = w.store.next_id)
    (h : Absent u w) : Absent u w' := by
  refine ⟨?_, hnext ▸ h.2⟩
  intro r hr
  have : r.id ∈ w'.store.records.map (fun x => x.id) := List.mem_map_of_mem _ hr
  rw [hids] at this
  rcases List.mem_map.1 this with ⟨r0, hr0, he⟩
  rw [← he]
  exact h.1 r0 hr0

theorem absent_update_service (u : Nat) (w : World) (id : Nat)
    (upd : ServiceUpdate) (h : Absent u w) :
    Absent u { w with store := w.store.update_service id upd } :=
  absent_of_shape u w _ (update_service_ids w.store id upd) rfl h

theorem absent_find (env : DeployerEnv) (u : Nat) (w : World) (running : Bool)
    (service_uuid : Option Nat)
    (pipeline_name run_name pipeline_step_name endpoint_name_or_model_name
     model_name model_version : Option String)
    (service_type : Option ServiceType) (type_p flavor_p : Option String)
    (h : Absent u w) :
    Absent u (find_model_server env w running service_uuid pipeline_name
      run_name pipeline_step_name endpoint_name_or_model_name model_name
      model_version service_type type_p flavor_p).2 := by
  unfold find_model_server
  dsimp only
  have hsh := findLoop_store_shape env (w.store.list_services (findFilter env
    running service_uuid pipeline_name run_name pipeline_step_name
    endpoint_name_or_model_name model_name model_version service_type type_p
    flavor_p)) w []
  exact absent_of_shape u w _ hsh.1 hsh.2.1 h

theorem absent_finalize (env : DeployerEnv) (u : Nat) (w : World)
    (s : BaseService) (h : Absent u w) :
    Absent u (finalizeDeploy env w s).2 :=
  absent_update_service u w s.uuid _ h

theorem absent_create (u : Nat) (w : World) (c : ServiceConfig)
    (stype : ServiceType) (mvid : Option Nat) (h : Absent u w) :
    Absent u { w with store := (w.store.create_service c stype mvid).2 } := by
  unfold Store.create_service
  refine ⟨?_, Nat.lt_succ_of_lt h.2⟩
  intro r hr
  rcases List.mem_cons.1 hr with he | hm
  · rw [he]
    exact Nat.ne_of_gt h.2
  · exact h.1 r hm

theorem absent_runOp (env : DeployerEnv) (u : Nat) (w : World)
    (op : DeployerOp) (h : Absent u w) : Absent u (runOp env w op) := by
  cases op with
  | findOp a => exact absent_find env u w _ _ _ _ _ _ _ _ _ _ _ h
  | stopOp uuid f =>
    unfold runOp stop_model_server
    dsimp only
    rcases hf : find_model_server env w false (some uuid) none none none none
        none none none none none with ⟨res, w₁⟩
    have h₁ : Absent u w₁ := by
      have := absent_find env u w false (some uuid) none none none none none
        none none none none h
      rw [hf] at this
      exact this
    cases res with
    | error e => exact h₁
    | ok services =>
      cases services with
      | nil => exact h₁
      | cons sv rest =>
        dsimp only
        cases hp : env.perform_stop sv f with
        | error e => exact h₁
        | ok updated =>
          exact absent_update_service u
            { w₁ with trace := w₁.trace ++ [.performStop sv.uuid f] } _ _ h₁
  | startOp uuid =>
    unfold runOp start_model_server
    dsimp only
    rcases hf : find_model_server env w false (some uuid) none none none none
        none none none none none with ⟨res, w₁⟩
    have h₁ : Absent u w₁ := by
      have := absent_find env u w false (some uuid) none none none none none
        none none none none h
      rw [hf] at this
      exact this
    cases res with
    | error e => exact h₁
    | ok services =>
      cases services with
      | nil => exact h₁
      | cons sv rest =>
        dsimp only
        cases hp : env.perform_start sv with
        | error e => exact h₁
        | ok updated =>
          exact absent_update_service u
            { w₁ with trace := w₁.trace ++ [.performStart sv.uuid] } _ _ h₁
  | deleteOp uuid f =>
    unfold runOp delete_model_server
    dsimp only
    rcases hf : find_model_server env w false (some uuid) none none none none
        none none none none none with ⟨res, w₁⟩
    have h₁ : Absent u w₁ := by
      have := absent_find env u w false (some uuid) none none none none none
        none none none none h
      rw [hf] at this
      exact this
    cases res with
    | error e => exact h₁
    | ok services =>
      cases services with
      | nil => exact h₁
      | cons sv rest =>
        dsimp only
        cases hp : env.perform_delete sv.uuid f with
        | error e => exact h₁
        | ok r =>
          refine ⟨?_, h₁.2⟩
          intro rec hrec
          unfold Store.delete_service at hrec
          have := List.of_mem_filter hrec
          have hne : ¬ rec.id = uuid := by simpa using this
          exact h₁.1 rec (List.mem_of_mem_filter hrec)
  | deployOp c stype rep t =>
    unfold runOp deploy_model
    dsimp only
    rcases hf : find_model_server env w false none (some c.pipeline_name)
        (some c.run_name) (some c.pipeline_step_name) none (some c.model_name)
        (some c.model_version) (some stype) none none with ⟨res, w₁⟩
    have h₁ : Absent u w₁ := by
      have := absent_find env u w false none (some c.pipeline_name)
        (some c.run_name) (some c.pipeline_step_name) none (some c.model_name)
        (some c.model_version) (some stype) none none h
      rw [hf] at this
      exact this
    cases res with
    | error e => exact h₁
    | ok services =>
      cases services with
      | cons sv rest =>
        dsimp only
        cases rep with
        | false =>
          simp only [Bool.false_eq_true, if_false]
          exact absent_finalize env u w₁ sv h₁
        | true =>
          simp only [if_true]
          have h₂ : Absent u { w₁ with
              trace := w₁.trace ++ [.performDelete sv.uuid true] } := h₁
          cases hd : env.perform_delete sv.uuid true with
          | error e => exact h₂
          | ok r =>
            dsimp only
            rcases hs : (sv.update c).start (env.senv (sv.update c).uuid) t with
              ⟨sres, sv'⟩
            cases sres with
            | error e => exact h₂
            | ok r2 => exact absent_finalize env u _ sv' h₂
      | nil =>
        dsimp only
        have h₂ : Absent u { w₁ with store :=
            (w₁.store.create_service c stype (getModelVersionIdIfExists env
              (some c.model_name) (some c.model_version))).2 } :=
          absent_create u w₁ c stype _ h₁
        cases hd : env.perform_deploy
            (w₁.store.create_service c stype (getModelVersionIdIfExists env
              (some c.model_name) (some c.model_version))).1.id c with
        | error e => exact h₂
        | ok sv => exact absent_finalize env u _ sv h₂

theorem absent_runOps (env : DeployerEnv) (u : Nat) :
    ∀ (ops : List DeployerOp) (w : World), Absent u w →
      Absent u (runOps env ops w) := by
  intro ops
  induction ops with
  | nil => intro w h; exact h
  | cons op rest ih =>
    intro w h
    exact ih (runOp env w op) (absent_runOp env u w op h)

/-- Every service a successful `find_model_server` returns revives a record
of the store it was called on: its uuid is a stored record id. -/
theorem find_ok_uuid_in_store (env : DeployerEnv) (w : World) (running : Bool)
    (service_uuid : Option Nat)
    (pipeline_name run_name pipeline_step_name endpoint_name_or_model_name
     model_name model_version : Option String)
    (service_type : Option ServiceType) (type_p flavor_p : Option String)
    (l : List BaseService) (w' : World)
    (h : find_model_server env w running service_uuid pipeline_name run_name
      pipeline_step_name endpoint_name_or_model_name model_name model_version
      service_type type_p flavor_p = (.ok l, w')) :
    ∀ s ∈ l, ∃ r ∈ w.store.records, s.uuid = r.id := by
  intro s hs
  unfold find_model_server at h
  dsimp only at h
  rcases findLoop_uuid_mem env _ w [] l w' h s hs with ⟨r, hr, he⟩ | hacc
  · exact ⟨r, List.mem_of_mem_filter hr, he⟩
  · exact absurd hacc (List.not_mem_nil s)

/-- A record matching a filter with an id constraint carries that id. -/
theorem recordMatches_id (f : ServiceFilter) (r : ServiceRecord) (u : Nat)
    (hid : f.id = some u) (h : recordMatches f r = true) : r.id = u := by
  unfold recordMatches at h
  simp only [Bool.and_eq_true] at h
  have h1 := h.1.1.1.1.1.1.1.1
  rw [hid] at h1
  unfold matchOpt at h1
  exact (of_decide_eq_true h1).symm

/-- Every service a successful `find_model_server` returns revives a stored
record that satisfies the constructed filter. -/
theorem find_ok_uuid_matched (env : DeployerEnv) (w : World) (running : Bool)
    (service_uuid : Option Nat)
    (pipeline_name run_name pipeline_step_name endpoint_name_or_model_name
     model_name model_version : Option String)
    (service_type : Option ServiceType) (type_p flavor_p : Option String)
    (l : List BaseService) (w' : World)
    (h : find_model_server env w running service_uuid pipeline_name run_name
      pipeline_step_name endpoint_name_or_model_name model_name model_version
      service_type type_p flavor_p = (.ok l, w')) :
    ∀ s ∈ l, ∃ r ∈ w.store.records,
      recordMatches (findFilter env running service_uuid pipeline_name
        run_name pipeline_step_name endpoint_name_or_model_name model_name
        model_version service_type type_p flavor_p) r = true ∧ s.uuid = r.id := by
  intro s hs
  unfold find_model_server at h
  dsimp only at h
  rcases findLoop_uuid_mem env _ w [] l w' h s hs with ⟨r, hr, he⟩ | hacc
  · unfold Store.list_services at hr
    have hm := List.mem_filter.1 hr
    exact ⟨r, hm.1, hm.2, he⟩
  · exact absurd hacc (List.not_mem_nil s)

/-- Claim C8: after a successful `delete_model_server(uuid)` on a store whose
record ids are below the id generator, the store record for that uuid is
gone, and after ANY subsequent sequence of deployer API calls (deploy, stop,
start, delete, find with arbitrary arguments), no `find_model_server` call
with any combination of filters ever returns a service with that uuid again —
the deletion is irreversible. -/
theorem c8_delete_permanent (env : DeployerEnv) (w : World) (u : Nat)
    (timeout_force : Bool)
    (hwf : ∀ r ∈ w.store.records, r.id < w.store.next_id)
    (hdel : (delete_model_server env w u timeout_force).1 = .ok ()) :
    (∀ r ∈ (delete_model_server env w u timeout_force).2.store.records,
      r.id ≠ u) ∧
    (∀ (ops : List DeployerOp) (a : FindArgs) (l : List BaseService)
      (w' : World),
      find_model_server env
        (runOps env ops (delete_model_server env w u timeout_force).2)
        a.running a.service_uuid a.pipeline_name a.run_name
        a.pipeline_step_name a.endpoint_name_or_model_name a.model_name
        a.model_version a.service_type a.type_p a.flavor_p = (.ok l, w') →
      ∀ s ∈ l, s.uuid ≠ u) := by
  have habs : Absent u (delete_model_server env w u timeout_force).2 := by
    unfold delete_model_server at hdel ⊢
    dsimp only at hdel ⊢
    rcases hf : find_model_server env w false (some u) none none none none
        none none none none none with ⟨res, w₁⟩
    rw [hf] at hdel
    cases res with
    | error e => simp at hdel
    | ok services =>
      cases services with
      | nil => simp at hdel
      | cons sv rest =>
        dsimp only at hdel ⊢
        cases hp : env.perform_delete sv.uuid timeout_force with
        | error e => rw [hp] at hdel; simp at hdel
        | ok r =>
          dsimp only
          have hWuuid : u < w.store.next_id := by
            rcases find_ok_uuid_matched env w false (some u) none none none
                none none none none none none (sv :: rest) w₁ hf sv
                (List.mem_cons_self sv rest) with ⟨rec, hrecmem, hrecmatch, _⟩
            have hrid : rec.id = u := recordMatches_id _ rec u rfl hrecmatch
            rw [← hrid]
            exact hwf rec hrecmem
          refine ⟨?_, ?_⟩
          · intro rec hrec
            unfold Store.delete_service at hrec
            have := List.of_mem_filter hrec
            simpa using this
          · have hsh := findLoop_store_shape env (w.store.list_services
              (findFilter env false (some u) none none none none none none
              none none none)) w []
            have : w₁.store.next_id = w.store.next_id := by
              have h2 := congrArg Prod.snd hf
              unfold find_model_server at h2
              dsimp only at h2
              rw [← h2]
              exact hsh.2.1
            show u < w₁.store.next_id
            rw [this]
            exact hWuuid
  refine ⟨habs.1, ?_⟩
  intro ops a l w' hfind s hs
  have habs2 := absent_runOps env u ops _ habs
  rcases find_ok_uuid_in_store env _ a.running a.service_uuid a.pipeline_name
      a.run_name a.pipeline_step_name a.endpoint_name_or_model_name
      a.model_name a.model_version a.service_type a.type_p a.flavor_p l w'
      hfind s hs with ⟨r, hr, he⟩
  rw [he]
  exact habs2.1 r hr

/-- The world after the C8 witness scenario: delete uuid 7, then run one more
fresh deployment of the same model. -/
def c8AfterWorld : World :=
  runOps witnessDeployerEnv
    [.deployOp witnessConfig witnessServiceType false 0]
    (delete_model_server witnessDeployerEnv witnessWorld 7 false).2

/-- An unconstrained `find_model_server` argument pack (no filters). -/
def c8AllArgs : FindArgs :=
  { running := false, service_uuid := none, pipeline_name := none,
    run_name := none, pipeline_step_name := none,
    endpoint_name_or_model_name := none, model_name := none,
    model_version := none, service_type := none, type_p := none,
    flavor_p := none }

/-- The services an unconstrained find returns in the C8 witness world. -/
def c8AfterList : List BaseService :=
  match (find_model_server witnessDeployerEnv c8AfterWorld c8AllArgs.running
    c8AllArgs.service_uuid c8AllArgs.pipeline_name c8AllArgs.run_name
    c8AllArgs.pipeline_step_name c8AllArgs.endpoint_name_or_model_name
    c8AllArgs.model_name c8AllArgs.model_version c8AllArgs.service_type
    c8AllArgs.type_p c8AllArgs.flavor_p).1 with
  | .ok l => l
  | .error _ => []

/-- Witness for C8 at a concrete input: deleting uuid 7 succeeds and empties
the store; after a subsequent fresh deployment of the same model, an
unconstrained `find_model_server` returns a non-empty result (the new record,
id 8) in which uuid 7 no longer appears. -/
theorem c8_witness :
    (delete_model_server witnessDeployerEnv witnessWorld 7 false).1 = .ok () ∧
    (delete_model_server witnessDeployerEnv witnessWorld 7
      false).2.store.records.map (fun r => r.id) = [] ∧
    c8AfterList.map (fun s => s.uuid) = [8] ∧
    7 ∉ c8AfterList.map (fun s => s.uuid) := by
  have hwf : ∀ r ∈ witnessWorld.store.records,
      r.id < witnessWorld.store.next_id := by decide
  have hdel : (delete_model_server witnessDeployerEnv witnessWorld 7 false).1 =
      .ok () := by decide
  have main := c8_delete_permanent witnessDeployerEnv witnessWorld 7 false hwf hdel
  have hfind : find_model_server witnessDeployerEnv c8AfterWorld
      c8AllArgs.running c8AllArgs.service_uuid c8AllArgs.pipeline_name
      c8AllArgs.run_name c8AllArgs.pipeline_step_name
      c8AllArgs.endpoint_name_or_model_name c8AllArgs.model_name
      c8AllArgs.model_version c8AllArgs.service_type c8AllArgs.type_p
      c8AllArgs.flavor_p =
      (.ok c8AfterList,
       (find_model_server witnessDeployerEnv c8AfterWorld c8AllArgs.running
        c8AllArgs.service_uuid c8AllArgs.pipeline_name c8AllArgs.run_name
        c8AllArgs.pipeline_step_name c8AllArgs.endpoint_name_or_model_name
        c8AllArgs.model_name c8AllArgs.model_version c8AllArgs.service_type
        c8AllArgs.type_p c8AllArgs.flavor_p).2) := by decide
  refine ⟨hdel, by decide, by decide, ?_⟩
  intro hmem
  rcases List.mem_map.1 hmem with ⟨s, hs, he⟩
  exact main.2 [.deployOp witnessConfig witnessServiceType false 0] c8AllArgs
    c8AfterList _ hfind s hs he

/-! ## Similarity of store records across status reconciliation -/

/-- Two records agree on everything the identity filters, the `desc:created`
order and revivability can see: the id, the configuration, the service type,
the resolved model version and the creation ordinal; a revivable record stays
revivable. Status, admin state, name and URLs may differ — they are exactly
what write-backs touch. -/
def SimRec (r r' : ServiceRecord) : Prop :=
  r'.id = r.id ∧ r'.config = r.config ∧ r'.service_type = r.service_type ∧
  r'.model_version_id = r.model_version_id ∧ r'.created = r.created ∧
  (SourceOk r → SourceOk r')

theorem simRec_refl (r : ServiceRecord) : SimRec r r :=
  ⟨rfl, rfl, rfl, rfl, rfl, id⟩

theorem simRec_trans (a b c : ServiceRecord) (h1 : SimRec a b)
    (h2 : SimRec b c) : SimRec a c :=
  ⟨h2.1.trans h1.1, h2.2.1.trans h1.2.1, h2.2.2.1.trans h1.2.2.1,
   h2.2.2.2.1.trans h1.2.2.2.1, h2.2.2.2.2.1.trans h1.2.2.2.2.1,
   fun h => h2.2.2.2.2.2 (h1.2.2.2.2.2 h)⟩

/-- A filter that does not look at the stored status or at the record name:
the shape of every filter `deploy_model` builds. -/
def StatusBlind (f : ServiceFilter) : Prop :=
  f.running = false ∧ f.endpoint_name_or_model_name = none

/-- Status-blind filters cannot distinguish similar records. -/
theorem simRec_matches (f : ServiceFilter) (hb : StatusBlind f)
    (r r' : ServiceRecord) (h : SimRec r r') :
    recordMatches f r' = recordMatches f r := by
  unfold recordMatches
  rw [h.1, h.2.1, h.2.2.1, h.2.2.2.1, hb.1, hb.2]
  simp

theorem forall₂_simRec_trans (l1 l2 l3 : List ServiceRecord)
    (h1 : List.Forall₂ SimRec l1 l2) (h2 : List.Forall₂ SimRec l2 l3) :
    List.Forall₂ SimRec l1 l3 := by
  induction h1 generalizing l3 with
  | nil =>
    cases h2
    exact List.Forall₂.nil
  | cons hab htl ih =>
    rename_i a b as bs
    cases h2 with
    | cons hbc htl2 =>
      exact List.Forall₂.cons (simRec_trans _ _ _ hab hbc) (ih _ htl2)

theorem forall₂_mem_right {α β : Type} (R : α → β → Prop) (l : List α)
    (l' : List β) (h : List.Forall₂ R l l') (b : β) (hb : b ∈ l') :
    ∃ a ∈ l, R a b := by
  induction h with
  | nil => exact absurd hb (List.not_mem_nil b)
  | cons hab htl ih =>
    rename_i x y xs ys
    rcases List.mem_cons.1 hb with he | hm
    · exact ⟨x, List.mem_cons_self x xs, he ▸ hab⟩
    · rcases ih hm with ⟨a, ha, hr⟩
      exact ⟨a, List.mem_cons_of_mem x ha, hr⟩

theorem forall₂_simRec_ids (l l' : List ServiceRecord)
    (h : List.Forall₂ SimRec l l') :
    l'.map (fun r => r.id) = l.map (fun r => r.id) := by
  induction h with
  | nil => rfl
  | cons hab htl ih =>
    rename_i a b as bs
    simp only [List.map_cons, ih, hab.1]

theorem forall₂_filter_simRec (f : ServiceFilter) (hb : StatusBlind f)
    (l l' : List ServiceRecord) (h : List.Forall₂ SimRec l l') :
    List.Forall₂ SimRec (l.filter (recordMatches f))
      (l'.filter (recordMatches f)) := by
  induction h with
  | nil => exact List.Forall₂.nil
  | cons hab htl ih =>
    rename_i a b as bs
    simp only [List.filter_cons]
    rw [simRec_matches f hb a b hab]
    by_cases hm : recordMatches f a = true
    · rw [if_pos hm, if_pos hm]
      exact List.Forall₂.cons hab ih
    · rw [if_neg hm, if_neg hm]
      exact ih

/-- Status reconciliation leaves every record similar to itself. -/
theorem reconcileStore_sim (env : DeployerEnv) (ids : List Nat) (st : Store) :
    List.Forall₂ SimRec st.records (reconcileStore env ids st).records := by
  unfold reconcileStore
  dsimp only
  induction st.records with
  | nil => exact List.Forall₂.nil
  | cons r rest ih =>
    simp only [List.map_cons]
    refine List.Forall₂.cons ?_ ih
    by_cases hm : r.id ∈ ids
    · rw [if_pos hm]
      unfold reconcileRecord
      by_cases hst : (r.probed env).status = r.status
      · rw [if_pos hst]
        exact simRec_refl r
      · rw [if_neg hst]
        exact ⟨rfl, rfl, rfl, rfl, rfl, id⟩
    · rw [if_neg hm]
      exact simRec_refl r

/-- An `update_service` whose config payload agrees with the target records'
own config and whose source payload (if any) is revivable leaves every record
similar to itself. -/
theorem update_map_sim (id : Nat) (u : ServiceUpdate)
    (hsrc : u.service_source = none ∨
      ∃ src, u.service_source = some src ∧ src ≠ "") :
    ∀ (l : List ServiceRecord),
    (∀ rec ∈ l, rec.id = id → u.config = none ∨ u.config = some rec.config) →
    List.Forall₂ SimRec l
      (l.map fun r => if r.id = id then applyUpdate u r else r) := by
  intro l
  induction l with
  | nil =>
    intro _
    exact List.Forall₂.nil
  | cons r rest ih =>
    intro hconf
    simp only [List.map_cons]
    refine List.Forall₂.cons ?_
      (ih (fun rec hm => hconf rec (List.mem_cons_of_mem r hm)))
    by_cases hm : r.id = id
    · rw [if_pos hm]
      unfold applyUpdate
      refine ⟨rfl, ?_, rfl, rfl, rfl, ?_⟩
      · rcases hconf r (List.mem_cons_self r rest) hm with hc | hc <;>
          simp [hc]
      · intro hok
        rcases hsrc with hs | ⟨src, hs, hne⟩
        · unfold SourceOk at hok ⊢
          simpa [hs] using hok
        · unfold SourceOk
          simp [hs, hne]
    · rw [if_neg hm]
      exact simRec_refl r

theorem update_service_sim (st : Store) (id : Nat) (u : ServiceUpdate)
    (hconf : ∀ rec ∈ st.records, rec.id = id →
      u.config = none ∨ u.config = some rec.config)
    (hsrc : u.service_source = none ∨
      ∃ src, u.service_source = some src ∧ src ≠ "") :
    List.Forall₂ SimRec st.records (st.update_service id u).records :=
  update_map_sim id u hsrc st.records hconf

/-! ## Second deploy_model call: found-and-keep path -/

/-- The identity filter `deploy_model` builds from a config and service
type. -/
def deployFilter (env : DeployerEnv) (config : ServiceConfig)
    (stype : ServiceType) : ServiceFilter :=
  findFilter env false none (some config.pipeline_name) (some config.run_name)
    (some config.pipeline_step_name) none (some config.model_name)
    (some config.model_version) (some stype) none none

theorem deployFilter_statusBlind (env : DeployerEnv) (config : ServiceConfig)
    (stype : ServiceType) : StatusBlind (deployFilter env config stype) :=
  ⟨rfl, rfl⟩

theorem probed_provision (env : DeployerEnv) (r : ServiceRecord) :
    (r.probed env).provision_count = 0 := by
  unfold ServiceRecord.probed
  rw [update_status_provision_count]
  rfl

theorem reconcileStore_nil (env : DeployerEnv) (st : Store) :
    reconcileStore env [] st = st := by
  unfold reconcileStore
  simp

/-- Extraction: a successful `find_model_server` means every matched record
was revivable. -/
theorem find_ok_sourceOk (env : DeployerEnv) (w : World) (running : Bool)
    (service_uuid : Option Nat)
    (pipeline_name run_name pipeline_step_name endpoint_name_or_model_name
     model_name model_version : Option String)
    (service_type : Option ServiceType) (type_p flavor_p : Option String)
    (l : List BaseService) (w' : World)
    (h : find_model_server env w running service_uuid pipeline_name run_name
      pipeline_step_name endpoint_name_or_model_name model_name model_version
      service_type type_p flavor_p = (.ok l, w')) :
    ∀ r ∈ w.store.list_services (findFilter env running service_uuid
      pipeline_name run_name pipeline_step_name endpoint_name_or_model_name
      model_name model_version service_type type_p flavor_p), SourceOk r := by
  unfold find_model_server at h
  dsimp only at h
  exact findLoop_sourceOk env _ w [] l w' h

/-- The final full-snapshot `update_service` of `deploy_model` keeps every
record similar to itself when the persisted service agrees with its record's
config and has a non-empty source. -/
theorem finalize_sim (env : DeployerEnv) (w : World) (s : BaseService)
    (hconf : ∀ rec ∈ w.store.records, rec.id = s.uuid → rec.config = s.config)
    (hsrc : s.source ≠ "") :
    List.Forall₂ SimRec w.store.records (finalizeDeploy env w s).2.store.records := by
  unfold finalizeDeploy
  dsimp only
  apply update_service_sim
  · intro rec hrec hid
    right
    rw [hconf rec hrec hid]
    rfl
  · right
    exact ⟨s.source, rfl, hsrc⟩

/-- A second `deploy_model` with `replace = false` that finds an existing
match returns the probed head of the match untouched: no backend call is
traced, the returned service was never provisioned, and every store record
stays similar to itself. -/
theorem deploy_found_noreplace (env : DeployerEnv) (w1 : World)
    (config : ServiceConfig) (stype : ServiceType) (timeout : Nat)
    (r₂ : ServiceRecord) (t₂ : List ServiceRecord)
    (hnd1 : (w1.store.records.map (fun r => r.id)).Nodup)
    (hm : w1.store.list_services (deployFilter env config stype) = r₂ :: t₂)
    (hsrc : ∀ r ∈ r₂ :: t₂, SourceOk r) :
    ∃ w2 : World,
      deploy_model env w1 config stype false timeout = (.ok (r₂.probed env), w2) ∧
      w2.trace = w1.trace ∧
      List.Forall₂ SimRec w1.store.records w2.store.records := by
  have hsrc' : ∀ r ∈ w1.store.list_services (deployFilter env config stype),
      SourceOk r := by
    rw [hm]
    exact hsrc
  have hfspec := find_model_server_spec env w1 false none
    (some config.pipeline_name) (some config.run_name)
    (some config.pipeline_step_name) none (some config.model_name)
    (some config.model_version) (some stype) none none
    (deployFilter env config stype) rfl hnd1 hsrc'
  rw [hm] at hfspec
  simp only [List.map_cons] at hfspec
  have hsimB : List.Forall₂ SimRec w1.store.records
      (reconcileStore env (r₂.id :: t₂.map (fun r => r.id))
        w1.store).records := reconcileStore_sim env _ w1.store
  have hr₂mem : r₂ ∈ w1.store.records := by
    have : r₂ ∈ w1.store.list_services (deployFilter env config stype) := by
      rw [hm]
      exact List.mem_cons_self r₂ t₂
    exact List.mem_of_mem_filter this
  have hconf : ∀ rec ∈ (reconcileStore env (r₂.id :: t₂.map (fun r => r.id))
      w1.store).records, rec.id = (r₂.probed env).uuid →
      rec.config = (r₂.probed env).config := by
    intro rec hrec hid
    rcases forall₂_mem_right SimRec _ _ hsimB rec hrec with ⟨rec₀, hrec₀, hsim⟩
    have hid2 : rec₀.id = r₂.id := by
      rw [← hsim.1, hid, probed_uuid]
    have : rec₀ = r₂ := List.inj_on_of_nodup_map hnd1 hrec₀ hr₂mem hid2
    rw [probed_config, hsim.2.1, this]
  have hs2src : (r₂.probed env).source ≠ "" := by
    rw [probed_source]
    exact hsrc r₂ (List.mem_cons_self r₂ t₂)
  refine ⟨(finalizeDeploy env
      ⟨reconcileStore env (r₂.id :: t₂.map (fun r => r.id)) w1.store,
       w1.trace⟩ (r₂.probed env)).2, ?_, ?_, ?_⟩
  · unfold deploy_model
    rw [hfspec]
    dsimp only
    simp only [Bool.false_eq_true, if_false]
    rfl
  · rfl
  · exact forall₂_simRec_trans _ _ _ hsimB
      (finalize_sim env
        ⟨reconcileStore env (r₂.id :: t₂.map (fun r => r.id)) w1.store,
         w1.trace⟩ (r₂.probed env) hconf hs2src)

/-! ## First deploy_model call: what the store looks like afterwards -/

/-- A record whose config, service type and resolved model version are the
deployed ones satisfies the identity filter of `deploy_model`. -/
theorem deployFilter_matches_own (env : DeployerEnv) (config : ServiceConfig)
    (stype : ServiceType) (r : ServiceRecord)
    (hc : r.config = config) (ht : r.service_type = stype)
    (hm : r.model_version_id = getModelVersionIdIfExists env
      (some config.model_name) (some config.model_version)) :
    recordMatches (deployFilter env config stype) r = true := by
  unfold recordMatches deployFilter findFilter matchOpt
  dsimp only
  rw [hc, ht, hm]
  cases hv : getModelVersionIdIfExists env (some config.model_name)
      (some config.model_version) <;> simp

theorem applyUpdate_snapshot (env : DeployerEnv) (svc : BaseService)
    (r : ServiceRecord) :
    (applyUpdate (deploySnapshot env svc) r).id = r.id ∧
    (applyUpdate (deploySnapshot env svc) r).config = svc.config ∧
    (applyUpdate (deploySnapshot env svc) r).service_type = r.service_type ∧
    (applyUpdate (deploySnapshot env svc) r).model_version_id =
      r.model_version_id ∧
    (applyUpdate (deploySnapshot env svc) r).service_source =
      some svc.source := by
  exact ⟨rfl, rfl, rfl, rfl, rfl⟩

/-- What a first `deploy_model(config, stype, replace := false)` call that
returns successfully guarantees about the resulting store: the identity
filter now matches a non-empty newest-first list whose head record carries
the returned service's uuid, every matched record is revivable, and the
record ids are still pairwise distinct. -/
theorem deploy_first_bridge (env : DeployerEnv) (w : World)
    (config : ServiceConfig) (stype : ServiceType) (timeout : Nat)
    (s1 : BaseService) (w1 : World)
    (hnd : (w.store.records.map (fun r => r.id)).Nodup)
    (hlt : ∀ r ∈ w.store.records, r.id < w.store.next_id)
    (hdep : ∀ (id : Nat) (c : ServiceConfig) (svc : BaseService),
      env.perform_deploy id c = .ok svc →
      svc.uuid = id ∧ svc.config = c ∧ svc.source ≠ "")
    (h1 : deploy_model env w config stype false timeout = (.ok s1, w1)) :
    ∃ (r₂ : ServiceRecord) (t₂ : List ServiceRecord),
      w1.store.list_services (deployFilter env config stype) = r₂ :: t₂ ∧
      r₂.id = s1.uuid ∧
      (∀ r ∈ r₂ :: t₂, SourceOk r) ∧
      (w1.store.records.map (fun r => r.id)).Nodup := by
  unfold deploy_model at h1
  rcases hf : find_model_server env w false none (some config.pipeline_name)
      (some config.run_name) (some config.pipeline_step_name) none
      (some config.model_name) (some config.model_version) (some stype)
      none none with ⟨res, wA⟩
  rw [hf] at h1
  cases res with
  | error e => simp at h1
  | ok services =>
    have hsok : ∀ r ∈ w.store.list_services (deployFilter env config stype),
        SourceOk r :=
      find_ok_sourceOk env w false none (some config.pipeline_name)
        (some config.run_name) (some config.pipeline_step_name) none
        (some config.model_name) (some config.model_version) (some stype)
        none none services wA hf
    have hfspec := find_model_server_spec env w false none
      (some config.pipeline_name) (some config.run_name)
      (some config.pipeline_step_name) none (some config.model_name)
      (some config.model_version) (some stype) none none
      (deployFilter env config stype) rfl hnd hsok
    have heq := hfspec.symm.trans hf
    have hserv : services = (w.store.list_services (deployFilter env config
        stype)).map (fun r => r.probed env) := by
      have h2 := congrArg Prod.fst heq
      simpa using h2.symm
    have hwA : wA = { w with store := (reconcileStore env
        ((w.store.list_services (deployFilter env config stype)).map
          (fun r => r.id)) w.store) } := by
      have h2 := congrArg Prod.snd heq
      simpa using h2.symm
    rcases hmm : w.store.list_services (deployFilter env config stype) with
      _ | ⟨rm, tm⟩
    · -- no existing match: the create path ran
      rw [hmm] at hserv hwA
      simp only [List.map_nil] at hserv hwA
      have hwA2 : wA = w := by
        rw [hwA, reconcileStore_nil]
      rw [hserv, hwA2] at h1
      dsimp only at h1
      cases hd : env.perform_deploy
          (w.store.create_service config stype (getModelVersionIdIfExists env
            (some config.model_name) (some config.model_version))).1.id
          config with
      | error e =>
        rw [hd] at h1
        simp at h1
      | ok svc =>
        rw [hd] at h1
        dsimp only at h1
        have hsvc : svc = s1 := by
          have h2 := congrArg Prod.fst h1
          unfold finalizeDeploy at h2
          simpa using h2
        have hw1 : w1 = (finalizeDeploy env
            ⟨(w.store.create_service config stype (getModelVersionIdIfExists
              env (some config.model_name) (some config.model_version))).2,
             w.trace ++ [.createService (w.store.create_service config stype
              (getModelVersionIdIfExists env (some config.model_name)
              (some config.model_version))).1.id, .performDeploy
              (w.store.create_service config stype (getModelVersionIdIfExists
              env (some config.model_name) (some config.model_version))).1.id]⟩
            svc).2 := by
          have h2 := congrArg Prod.snd h1
          exact h2.symm
        obtain ⟨hid, hcfg, hsrcne⟩ := hdep _ _ _ hd
        have hnewid : (w.store.create_service config stype
            (getModelVersionIdIfExists env (some config.model_name)
            (some config.model_version))).1.id = w.store.next_id := rfl
        have hrecords : w1.store.records =
            applyUpdate (deploySnapshot env svc)
              (w.store.create_service config stype (getModelVersionIdIfExists
                env (some config.model_name)
                (some config.model_version))).1 :: w.store.records := by
          rw [hw1]
          unfold finalizeDeploy Store.update_service
          dsimp only
          rw [show ((w.store.create_service config stype
            (getModelVersionIdIfExists env (some config.model_name)
            (some config.model_version))).2).records =
            (w.store.create_service config stype (getModelVersionIdIfExists
              env (some config.model_name)
              (some config.model_version))).1 :: w.store.records from rfl]
          rw [List.map_cons]
          congr 1
          · rw [if_pos (by rw [hnewid, hid, hnewid])]
          · have hne : ∀ r ∈ w.store.records, ¬ (r.id = svc.uuid) := by
              intro r hr
              rw [hid, hnewid]
              exact Nat.ne_of_lt (hlt r hr)
            refine (List.map_congr_left fun r hr => if_neg (hne r hr)).trans ?_
            exact List.map_id' w.store.records
        set rec₀ := (w.store.create_service config stype
          (getModelVersionIdIfExists env (some config.model_name)
          (some config.model_version))).1 with hrec₀
        set rec₁ := applyUpdate (deploySnapshot env svc) rec₀ with hrec₁
        obtain ⟨hf1, hf2, hf3, hf4, hf5⟩ := applyUpdate_snapshot env svc rec₀
        have hmatch : recordMatches (deployFilter env config stype) rec₁ =
            true := by
          refine deployFilter_matches_own env config stype rec₁ ?_ ?_ ?_
          · rw [hf2, hcfg]
          · rw [hf3]
            rfl
          · rw [hf4]
            rfl
        have hlist : w1.store.list_services (deployFilter env config stype) =
            [rec₁] := by
          unfold Store.list_services
          rw [hrecords]
          rw [List.filter_cons, if_pos hmatch]
          have : w.store.records.filter
              (recordMatches (deployFilter env config stype)) = [] := hmm
          rw [this]
        refine ⟨rec₁, [], hlist, ?_, ?_, ?_⟩
        · rw [hf1, hnewid, ← hsvc, hid, hnewid]
        · intro r hr
          rcases List.mem_cons.1 hr with he | hm2
          · rw [he]
            unfold SourceOk
            rw [hf5]
            simpa using hsrcne
          · exact absurd hm2 (List.not_mem_nil r)
        · rw [hrecords]
          rw [List.map_cons]
          refine List.nodup_cons.2 ⟨?_, hnd⟩
          rw [hf1, hnewid]
          intro hc
          rcases List.mem_map.1 hc with ⟨r0, hr0, he0⟩
          exact Nat.ne_of_lt (hlt r0 hr0) he0
    · -- an existing match was found and returned as-is
      rw [hmm] at hserv hwA
      simp only [List.map_cons] at hserv hwA
      rw [hserv] at h1
      dsimp only at h1
      simp only [Bool.false_eq_true, if_false] at h1
      have hs1 : rm.probed env = s1 := by
        have h2 := congrArg Prod.fst h1
        unfold finalizeDeploy at h2
        simpa using h2
      have hw1 : w1 = (finalizeDeploy env wA (rm.probed env)).2 := by
        have h2 := congrArg Prod.snd h1
        exact h2.symm
      have hsokm : ∀ r ∈ rm :: tm, SourceOk r := by
        rw [← hmm]
        exact hsok
      have hsimA : List.Forall₂ SimRec w.store.records wA.store.records := by
        rw [hwA]
        exact reconcileStore_sim env _ w.store
      have hrmmem : rm ∈ w.store.records :=
        List.mem_of_mem_filter (hmm ▸ List.mem_cons_self rm tm)
      have hconf : ∀ rec ∈ wA.store.records,
          rec.id = (rm.probed env).uuid → rec.config = (rm.probed env).config := by
        intro rec hrec hidr
        rcases forall₂_mem_right SimRec _ _ hsimA rec hrec with ⟨rec₀, hrec₀, hsim⟩
        have hid2 : rec₀.id = rm.id := by
          rw [← hsim.1, hidr, probed_uuid]
        have he : rec₀ = rm := List.inj_on_of_nodup_map hnd hrec₀ hrmmem hid2
        rw [probed_config, hsim.2.1, he]
      have hsrcrm : (rm.probed env).source ≠ "" := by
        rw [probed_source]
        exact hsokm rm (List.mem_cons_self rm tm)
      have hsim1 : List.Forall₂ SimRec w.store.records w1.store.records := by
        rw [hw1]
        exact forall₂_simRec_trans _ _ _ hsimA
          (finalize_sim env wA (rm.probed env) hconf hsrcrm)
      have hnd1 : (w1.store.records.map (fun r => r.id)).Nodup := by
        rw [forall₂_simRec_ids _ _ hsim1]
        exact hnd
      have hfilter₂ := forall₂_filter_simRec (deployFilter env config stype)
        (deployFilter_statusBlind env config stype) _ _ hsim1
      have hmm2 : w.store.records.filter
          (recordMatches (deployFilter env config stype)) = rm :: tm := hmm
      rw [hmm2] at hfilter₂
      unfold Store.list_services
      cases hfl : w1.store.records.filter
          (recordMatches (deployFilter env config stype)) with
      | nil =>
        rw [hfl] at hfilter₂
        cases hfilter₂
      | cons r₂ t₂ =>
        rw [hfl] at hfilter₂
        cases hfilter₂ with
        | cons hhead htail =>
          refine ⟨r₂, t₂, rfl, ?_, ?_, hnd1⟩
          · rw [hhead.1, ← hs1, probed_uuid]
          · intro r hr
            rcases List.mem_cons.1 hr with he | hm2
            · rw [he]
              exact hhead.2.2.2.2.2
                (hsokm rm (List.mem_cons_self rm tm))
            · rcases forall₂_mem_right SimRec _ _ htail r hm2 with
                ⟨a, ha, hsim⟩
              exact hsim.2.2.2.2.2
                (hsokm a (List.mem_cons_of_mem rm ha))

/-! ## Claim C2: deploy_model twice with replace=false is idempotent -/

/-- Claim C2: calling `deploy_model` twice in succession with the identical
config and `replace = false` (on a store with distinct record ids below the
id generator, with a backend whose `perform_deploy_model` honors the given
service id and config) returns a service with the same uuid both times, and
the second call performs no provisioning: the trace is unchanged (so
`perform_deploy_model` and `perform_delete_model` were not invoked), the
returned service is the freshly revived-and-probed head of the existing
match, returned as-is — never started (`provision_count = 0`) and carrying
the stored record's config (the caller's new config is silently discarded) —
and every store record keeps its id, config, service type, model version and
creation ordinal (`SimRec`): only lagging statuses are reconciled. -/
theorem c2_deploy_idempotent (env : DeployerEnv) (w : World)
    (config : ServiceConfig) (stype : ServiceType) (timeout : Nat)
    (s1 : BaseService) (w1 : World)
    (hnd : (w.store.records.map (fun r => r.id)).Nodup)
    (hlt : ∀ r ∈ w.store.records, r.id < w.store.next_id)
    (hdep : ∀ (id : Nat) (c : ServiceConfig) (svc : BaseService),
      env.perform_deploy id c = .ok svc →
      svc.uuid = id ∧ svc.config = c ∧ svc.source ≠ "")
    (h1 : deploy_model env w config stype false timeout = (.ok s1, w1)) :
    ∃ (r₂ : ServiceRecord) (t₂ : List ServiceRecord) (w2 : World),
      w1.store.list_services (deployFilter env config stype) = r₂ :: t₂ ∧
      deploy_model env w1 config stype false timeout =
        (.ok (r₂.probed env), w2) ∧
      (r₂.probed env).uuid = s1.uuid ∧
      (r₂.probed env).config = r₂.config ∧
      (r₂.probed env).provision_count = 0 ∧
      w2.trace = w1.trace ∧
      List.Forall₂ SimRec w1.store.records w2.store.records := by
  rcases deploy_first_bridge env w config stype timeout s1 w1 hnd hlt hdep h1
    with ⟨r₂, t₂, hlist, hid, hsrc, hnd1⟩
  rcases deploy_found_noreplace env w1 config stype timeout r₂ t₂ hnd1 hlist
    hsrc with ⟨w2, hdeploy, htrace, hsim⟩
  refine ⟨r₂, t₂, w2, hlist, hdeploy, ?_, probed_config env r₂,
    probed_provision env r₂, htrace, hsim⟩
  rw [probed_uuid, hid]

/-- The empty initial world of the C2 witness. -/
def c2EmptyWorld : World :=
  { store := { records := [], next_id := 0, next_created := 0 }, trace := [] }

/-- The world after the first witness deployment. -/
def c2FirstWorld : World :=
  (deploy_model witnessDeployerEnv c2EmptyWorld witnessConfig
    witnessServiceType false 0).2

/-- The service the second witness deployment returns. -/
def c2SecondService : BaseService :=
  match (deploy_model witnessDeployerEnv c2FirstWorld witnessConfig
    witnessServiceType false 0).1 with
  | .ok s => s
  | .error _ => witnessService

/-- Witness for C2 at a concrete input: deploying twice from an empty store
with identical config and `replace = false` creates uuid 0 once; the second
call returns the same uuid, provisions nothing (trace unchanged, the returned
service was never started) and traces exactly the one create/deploy pair of
the first call. -/
theorem c2_witness :
    deploy_model witnessDeployerEnv c2EmptyWorld witnessConfig
      witnessServiceType false 0 =
      (.ok (witnessDeployedService 0 witnessConfig), c2FirstWorld) ∧
    c2FirstWorld.trace = [.createService 0, .performDeploy 0] ∧
    c2SecondService.uuid = 0 ∧
    c2SecondService.provision_count = 0 ∧
    (deploy_model witnessDeployerEnv c2FirstWorld witnessConfig
      witnessServiceType false 0).2.trace = c2FirstWorld.trace := by
  have h1 : deploy_model witnessDeployerEnv c2EmptyWorld witnessConfig
      witnessServiceType false 0 =
      (.ok (witnessDeployedService 0 witnessConfig), c2FirstWorld) := by decide
  have hnd : (c2EmptyWorld.store.records.map (fun r => r.id)).Nodup := by decide
  have hlt : ∀ r ∈ c2EmptyWorld.store.records,
      r.id < c2EmptyWorld.store.next_id := by decide
  have hdep : ∀ (id : Nat) (c : ServiceConfig) (svc : BaseService),
      witnessDeployerEnv.perform_deploy id c = .ok svc →
      svc.uuid = id ∧ svc.config = c ∧ svc.source ≠ "" := by
    intro id c svc h
    have he := Except.ok.inj h
    rw [← he]
    exact ⟨rfl, rfl, (by decide : ("mod.Cls" : String) ≠ "")⟩
  rcases c2_deploy_idempotent witnessDeployerEnv c2EmptyWorld witnessConfig
      witnessServiceType 0 (witnessDeployedService 0 witnessConfig)
      c2FirstWorld hnd hlt hdep h1 with
    ⟨r₂, t₂, w2, hlist, hdeploy, huuid, hcfg, hprov, htrace, hsim⟩
  have hsnd : c2SecondService = r₂.probed witnessDeployerEnv := by
    unfold c2SecondService
    rw [hdeploy]
  refine ⟨h1, by decide, ?_, ?_, ?_⟩
  · rw [hsnd, huuid]
    rfl
  · rw [hsnd, hprov]
  · rw [hdeploy]
    exact htrace

end ZenML
